import Mathlib

/-!
# GoldQC: the CustomPython dispatcher and the error relay

A shallow embedding of `src/CustomPythoncDLL.c` (the exported entry point
`CustomPython`) and of `src/ErrorRelay.c` (`CopyMsgToOutputs`).

* The embedded interpreter is a two-valued state changed only by
  `Py_Initialize` and `Py_Finalize` and read by `Py_IsInitialized`.
* The Cython module behind `CustomPython.h` is not part of the sources; its
  functions are the fields of `Module`, a deterministic machine over a state
  type `M` chosen freely, so that a theorem over all `M` and all `Module M`
  speaks about every behaviour of the module.
* The constants of `CustomPython.h` are the fields of `XFConstants`.
* `double` values are their 8-byte IEEE-754 patterns, read as little-endian
  natural numbers; `outargs` is a memory of such slots indexed from 0.
* Every call that leaves `CustomPython` is appended to a trace.
-/

namespace GoldQC

/-! ## Data model -/

/-- Whether the embedded interpreter is up: what `Py_IsInitialized` observes. -/
inductive EngineState where
  | Stopped
  | Running
  deriving DecidableEq, Repr

/-- The calls that leave `CustomPython`, in the order they are made.
`ReturnErrorMsg` records its integer argument and the text it relays. -/
inductive Call where
  | Py_Initialize
  | initCustomPython
  | Py_Finalize
  | InitRoutines
  | ReturnCustomModuleVersion
  | NumInputsExpected
  | NumOutputsToProvide
  | DoCalcsAndReturnValues
  | WrapUpSimulation
  | ReturnErrorMsg (code : Int) (text : List Nat)
  deriving DecidableEq, Repr

/-- A `double *` argument: slot `k` holds the 8-byte pattern of element `k`. -/
abbrev Args := Nat → Nat

/-- The constants of `CustomPython.h`, which is generated by Cython and is not
among the sources.  The five method identifiers label the cases of one `switch`,
so they are pairwise different; the three status codes are the members of one
enumeration. -/
structure XFConstants where
  XF_INITIALIZE : Int
  XF_REP_VERSION : Int
  XF_REP_ARGUMENTS : Int
  XF_CALCULATE : Int
  XF_CLEANUP : Int
  XF_SUCCESS : Int
  XF_FAILURE : Int
  XF_FAILURE_WITH_MSG : Int
  methods_nodup :
    [XF_INITIALIZE, XF_REP_VERSION, XF_REP_ARGUMENTS, XF_CALCULATE, XF_CLEANUP].Nodup
  status_nodup : [XF_SUCCESS, XF_FAILURE, XF_FAILURE_WITH_MSG].Nodup

/-- Width of an integer type of the build. -/
inductive Width where
  | w32
  | w64
  deriving DecidableEq, Repr

/-- Number of bits of a width. -/
def Width.bits : Width → Nat
  | .w32 => 32
  | .w64 => 64

/-- What the compiler and the loader fix: the width of a pointer, the width of
`unsigned long int`, and the address at which the static `sBuffer` of
`CopyMsgToOutputs` resides. -/
structure Build where
  ptrWidth : Width
  ulongWidth : Width
  sBufferAddr : Nat

/-- The functions the dispatcher imports from the Cython module, as transitions
of the module's own state.  `ReturnErrorMsgText m code` is the diagnostic text
that `ReturnErrorMsg (code, outargs)` hands to the relay in module state `m`;
`initCustomPython` is the module set-up run right after `Py_Initialize`. -/
structure Module (M : Type) where
  initCustomPython : M → M
  InitRoutines : M → Int × M
  ReturnCustomModuleVersion : M → Nat × M
  NumInputsExpected : M → Int × M
  NumOutputsToProvide : M → Int × M
  DoCalcsAndReturnValues : M → Args → Args → Int × Args × M
  WrapUpSimulation : M → M
  ReturnErrorMsgText : M → Int → List Nat

/-- Everything a call of `CustomPython` reads or writes: the caller's `*status`
and `outargs`, the interpreter, the module, the static `sBuffer`, and the trace
of outgoing calls. -/
structure State (M : Type) where
  status : Int
  outargs : Args
  engine : EngineState
  module : M
  sBuffer : List Nat
  trace : List Call

/-! ## C library and language primitives -/

/-- Writing `outargs[k] = v`. -/
def setSlot (a : Args) (k v : Nat) : Args := fun j => if j = k then v else a j

/-- The bytes `memset (buf, c, n)` leaves in `buf`. -/
def memset (buf : List Nat) (c n : Nat) : List Nat :=
  List.replicate n c ++ buf.drop n

/-- The `n` bytes `strncpy` writes: the characters of `src` up to its
terminator (a 0 in the list, or the end of the list), cut at `n`, then zero
bytes up to `n`. -/
def strncpyBytes : List Nat → Nat → List Nat
  | _, 0 => []
  | [], n + 1 => List.replicate (n + 1) 0
  | c :: cs, n + 1 => if c = 0 then List.replicate (n + 1) 0 else c :: strncpyBytes cs n

/-- The bytes `strncpy (dest, src, n)` leaves in `dest`. -/
def strncpy (dest src : List Nat) (n : Nat) : List Nat :=
  strncpyBytes src n ++ dest.drop n

/-- A byte sequence read as a C string: the bytes before the first 0. -/
def cString (l : List Nat) : List Nat := l.takeWhile (fun c => c != 0)

/-- Storing `v` through an `unsigned long int *` of `w` bits that points at an
8-byte slot: the low `w` bits are replaced by `v mod 2^w`, the rest stays. -/
def storeULong (w : Width) (slot v : Nat) : Nat :=
  slot % 2 ^ 64 / 2 ^ w.bits * 2 ^ w.bits + v % 2 ^ w.bits

/-- Reading an `unsigned long int` of `w` bits from the start of a slot. -/
def loadULong (w : Width) (slot : Nat) : Nat := slot % 2 ^ w.bits

/-- Position of the highest set bit, by halving at most `fuel` times. -/
def floorLog2 : Nat → Nat → Nat
  | 0, _ => 0
  | fuel + 1, n => if n < 2 then 0 else floorLog2 fuel (n / 2) + 1

/-- The conversion `(double) i`: the IEEE-754 binary64 pattern of the integer
`i`.  Exact for every magnitude below `2^53`, hence for every C `int`; larger
magnitudes are cut towards zero. -/
def doubleOfInt (i : Int) : Nat :=
  if i = 0 then 0
  else
    let m := i.natAbs
    let e := floorLog2 m m
    let frac := if e ≤ 52 then m * 2 ^ (52 - e) - 2 ^ 52 else m / 2 ^ (e - 52) - 2 ^ 52
    (if i < 0 then 2 ^ 63 else 0) + (e + 1023) * 2 ^ 52 + frac

/-- The comparison `d > 0.0` on a binary64 pattern: sign bit clear, not zero,
not a NaN. -/
def doubleGtZero (d : Nat) : Bool := decide (0 < d ∧ d ≤ 0x7FF0000000000000)

/-! ## `ErrorRelay.c` -/

/-- `CopyMsgToOutputs (sMsg, outargs)`: returns `outargs` and the static
`sBuffer` as the call leaves them. -/
def CopyMsgToOutputs (B : Build) (sMsg : List Nat) (outargs : Args) (sBuffer : List Nat) :
    Args × List Nat :=
  -- memset(sBuffer, 0, sizeof(sBuffer));
  let sBuffer := memset sBuffer 0 81
  -- strncpy(sBuffer, sMsg, sizeof(sBuffer) - 1);
  let sBuffer := strncpy sBuffer sMsg (81 - 1)
  -- *pAddr = (unsigned long int*) sBuffer;   with pAddr = (unsigned long int*) outargs
  let outargs := setSlot outargs 0 (storeULong B.ulongWidth (outargs 0) B.sBufferAddr)
  (outargs, sBuffer)

/-! ## `CustomPythoncDLL.c` -/

section Dispatcher

variable {M : Type}

/-- `Py_IsInitialized ()`: non-zero exactly when the interpreter is up. -/
def Py_IsInitialized (s : State M) : Int :=
  match s.engine with
  | .Stopped => 0
  | .Running => 1

/-- `Py_Initialize ()`. -/
def Py_Initialize (s : State M) : State M :=
  { s with engine := .Running, trace := s.trace ++ [Call.Py_Initialize] }

/-- `Py_Finalize ()`. -/
def Py_Finalize (s : State M) : State M :=
  { s with engine := .Stopped, trace := s.trace ++ [Call.Py_Finalize] }

/-- `initCustomPython ()`. -/
def initCustomPython (mod : Module M) (s : State M) : State M :=
  { s with module := mod.initCustomPython s.module, trace := s.trace ++ [Call.initCustomPython] }

/-- Modelled from the spec: `ReturnErrorMsg` is defined in the Cython module,
which is not among the sources.  Following the Error Relay contract it hands the
diagnostic text for `code` to `CopyMsgToOutputs` together with `outargs`. -/
def ReturnErrorMsg (B : Build) (mod : Module M) (code : Int) (s : State M) : State M :=
  let text := mod.ReturnErrorMsgText s.module code
  let r := CopyMsgToOutputs B text s.outargs s.sBuffer
  { s with outargs := r.1, sBuffer := r.2, trace := s.trace ++ [Call.ReturnErrorMsg code text] }

/-- The start pattern that opens every case (lines 96-101, 119-124, ...):
`PyStatus = Py_IsInitialized (); if (PyStatus == 0) { Py_Initialize (); initCustomPython (); }`. -/
def ensure_running (mod : Module M) (s : State M) : State M :=
  let PyStatus := Py_IsInitialized s
  if PyStatus = 0 then initCustomPython mod (Py_Initialize s) else s

/-- The stop pattern (lines 109-112, 138-141, ...):
`PyStatus = Py_IsInitialized (); if (PyStatus != 0) { Py_Finalize (); }`. -/
def stop (s : State M) : State M :=
  let PyStatus := Py_IsInitialized s
  if PyStatus ≠ 0 then Py_Finalize s else s

/-- The body of `case XF_INITIALIZE` (lines 93-117). -/
def caseInitialize (K : XFConstants) (B : Build) (mod : Module M) (s : State M) : State M :=
  let s := ensure_running mod s
  let r := mod.InitRoutines s.module
  let RetStatus1 := r.1
  let s := { s with module := r.2, trace := s.trace ++ [Call.InitRoutines] }
  if RetStatus1 = 1 then
    let s := { s with status := K.XF_FAILURE_WITH_MSG }
    let s := ReturnErrorMsg B mod K.XF_INITIALIZE s
    stop s
  else
    { s with status := K.XF_SUCCESS }

/-- The body of `case XF_REP_VERSION` (lines 118-143). -/
def caseRepVersion (K : XFConstants) (B : Build) (mod : Module M) (s : State M) : State M :=
  let s := ensure_running mod s
  let r := mod.ReturnCustomModuleVersion s.module
  let VersionReturn := r.1
  let s := { s with module := r.2, trace := s.trace ++ [Call.ReturnCustomModuleVersion] }
  if doubleGtZero VersionReturn then
    let r := mod.ReturnCustomModuleVersion s.module
    let s := { s with module := r.2, trace := s.trace ++ [Call.ReturnCustomModuleVersion],
                      outargs := setSlot s.outargs 0 r.1 }
    { s with status := K.XF_SUCCESS }
  else
    let s := { s with status := K.XF_FAILURE_WITH_MSG }
    let s := ReturnErrorMsg B mod K.XF_REP_VERSION s
    stop s

/-- The body of `case XF_REP_ARGUMENTS` (lines 144-179). -/
def caseRepArguments (K : XFConstants) (B : Build) (mod : Module M) (s : State M) : State M :=
  let s := ensure_running mod s
  let r := mod.NumInputsExpected s.module
  let RetStatus3 := r.1
  let s := { s with module := r.2, trace := s.trace ++ [Call.NumInputsExpected] }
  let s :=
    if RetStatus3 < 0 then
      ReturnErrorMsg B mod K.XF_REP_ARGUMENTS { s with status := K.XF_FAILURE_WITH_MSG }
    else
      { s with status := K.XF_SUCCESS }
  let s := { s with outargs := setSlot s.outargs 0 (doubleOfInt RetStatus3) }
  let r := mod.NumOutputsToProvide s.module
  let RetStatus4 := r.1
  let s := { s with module := r.2, trace := s.trace ++ [Call.NumOutputsToProvide] }
  let s :=
    if RetStatus4 < 0 then
      ReturnErrorMsg B mod K.XF_REP_ARGUMENTS { s with status := K.XF_FAILURE_WITH_MSG }
    else
      { s with status := K.XF_SUCCESS }
  let s := { s with outargs := setSlot s.outargs 1 (doubleOfInt RetStatus4) }
  if RetStatus3 < 0 ∨ RetStatus4 < 0 then stop s else s

/-- The body of `case XF_CALCULATE` (lines 180-200). -/
def caseCalculate (K : XFConstants) (B : Build) (mod : Module M) (inargs : Args)
    (s : State M) : State M :=
  let s := ensure_running mod s
  let r := mod.DoCalcsAndReturnValues s.module inargs s.outargs
  let RetStatus2 := r.1
  let s := { s with outargs := r.2.1, module := r.2.2,
                    trace := s.trace ++ [Call.DoCalcsAndReturnValues] }
  if RetStatus2 ≠ 0 then
    let s := { s with status := K.XF_FAILURE_WITH_MSG }
    let s := ReturnErrorMsg B mod K.XF_CALCULATE s
    stop s
  else
    { s with status := K.XF_SUCCESS }

/-- The body of `case XF_CLEANUP` (lines 201-217). -/
def caseCleanup (K : XFConstants) (mod : Module M) (s : State M) : State M :=
  let s := ensure_running mod s
  let s := { s with status := K.XF_SUCCESS }
  let s := { s with module := mod.WrapUpSimulation s.module,
                    trace := s.trace ++ [Call.WrapUpSimulation] }
  stop s

/-- The body of the `default` case (lines 218-233). -/
def caseDefault (K : XFConstants) (B : Build) (mod : Module M) (s : State M) : State M :=
  let s := ensure_running mod s
  let s := { s with status := K.XF_FAILURE_WITH_MSG }
  let s := ReturnErrorMsg B mod 5 s
  stop s

/-- The exported `CustomPython (methodID, status, inargs, outargs)`; the state
on entry carries the caller's `*status` and `outargs`. -/
def CustomPython (K : XFConstants) (B : Build) (mod : Module M) (methodID : Int)
    (inargs : Args) (s : State M) : State M :=
  -- *status = XF_FAILURE;
  let s := { s with status := K.XF_FAILURE }
  -- switch ( methodID )
  if methodID = K.XF_INITIALIZE then caseInitialize K B mod s
  else if methodID = K.XF_REP_VERSION then caseRepVersion K B mod s
  else if methodID = K.XF_REP_ARGUMENTS then caseRepArguments K B mod s
  else if methodID = K.XF_CALCULATE then caseCalculate K B mod inargs s
  else if methodID = K.XF_CLEANUP then caseCleanup K mod s
  else caseDefault K B mod s

end Dispatcher

/-! ## Vocabulary for stating what a call did -/

/-- The calls the start pattern makes, by the engine state in which it is entered. -/
def startCalls : EngineState → List Call
  | .Stopped => [Call.Py_Initialize, Call.initCustomPython]
  | .Running => []

/-- The module state the start pattern leaves, by the engine state in which it
is entered. -/
def startModule {M : Type} (mod : Module M) : EngineState → M → M
  | .Stopped, m => mod.initCustomPython m
  | .Running, m => m

/-! ## Concrete instances used to exercise the model -/

/-- Sample values for the constants of `CustomPython.h`.  The status code for a
failure with message is the -2 quoted in the header comment of `ErrorRelay.c`. -/
def sampleConstants : XFConstants where
  XF_INITIALIZE := 0
  XF_REP_VERSION := 2
  XF_REP_ARGUMENTS := 3
  XF_CALCULATE := 1
  XF_CLEANUP := 99
  XF_SUCCESS := 0
  XF_FAILURE := 1
  XF_FAILURE_WITH_MSG := -2
  methods_nodup := by decide
  status_nodup := by decide

/-- A 32-bit build with `sBuffer` at address `0x10403000`. -/
def build32 : Build := ⟨.w32, .w32, 0x10403000⟩

/-- A module without state whose functions return fixed values and leave
`outargs` alone. -/
def constModule (init : Int) (version : Nat) (numIn numOut calcRet : Int) (text : List Nat) :
    Module Unit where
  initCustomPython := fun m => m
  InitRoutines := fun m => (init, m)
  ReturnCustomModuleVersion := fun m => (version, m)
  NumInputsExpected := fun m => (numIn, m)
  NumOutputsToProvide := fun m => (numOut, m)
  DoCalcsAndReturnValues := fun m _ out => (calcRet, out, m)
  WrapUpSimulation := fun m => m
  ReturnErrorMsgText := fun _ _ => text

/-- An entry state: the caller's `*status` is 7, `outargs` is all zero, the
static buffer is as loaded, nothing has been called yet. -/
def entryState (e : EngineState) : State Unit :=
  ⟨7, fun _ => 0, e, (), List.replicate 81 0, []⟩

/-- The diagnostic used in the examples: the three characters of "Err". -/
def sampleText : List Nat := [69, 114, 114]

/-- A module that reports -1 expected inputs and 2 outputs. -/
def moduleNegativeInputs : Module Unit := constModule 0 0 (-1) 2 0 sampleText

/-- A module that reports 3 expected inputs and -1 outputs. -/
def moduleNegativeOutputs : Module Unit := constModule 0 0 3 (-1) 0 sampleText

/-- The host's next call: it passes its own status cell and output array; the
interpreter, the module and the static buffer are as the previous call left them. -/
def nextCall {M : Type} (s : State M) (status : Int) (outargs : Args) : State M :=
  { s with status := status, outargs := outargs }

/-- The call sequence Initialize, Calculate, Cleanup, each call with its own
input array, status cell and output array. -/
def initCalcCleanup {M : Type} (K : XFConstants) (B : Build) (mod : Module M)
    (in₁ in₂ in₃ : Args) (st₂ st₃ : Int) (out₂ out₃ : Args) (s : State M) : State M :=
  let s₁ := CustomPython K B mod K.XF_INITIALIZE in₁ s
  let s₂ := CustomPython K B mod K.XF_CALCULATE in₂ (nextCall s₁ st₂ out₂)
  CustomPython K B mod K.XF_CLEANUP in₃ (nextCall s₂ st₃ out₃)

/-! ## Further vocabulary: comparisons, reads, and properties of call traces -/

/-- The comparison `d <= 0.0` on a binary64 pattern: either zero, or a negative
number or negative infinity; a NaN is neither `> 0.0` nor `<= 0.0`. -/
def doubleLeZero (d : Nat) : Bool :=
  decide (d = 0 ∨ (0x8000000000000000 ≤ d ∧ d ≤ 0xFFF0000000000000))

/-- What the host reads from a slot that carries a message pointer: the first
bytes of the slot, as many as a pointer of `w` bits has, as an unsigned integer. -/
def loadPointer (w : Width) (slot : Nat) : Nat := slot % 2 ^ w.bits

/-- The calls into the Cython module proper: everything but the interpreter
start (`Py_Initialize`, `initCustomPython`) and `Py_Finalize`. -/
def Call.isModuleCall : Call → Bool
  | .Py_Initialize => false
  | .initCustomPython => false
  | .Py_Finalize => false
  | _ => true

/-- The engine state after one call: only `Py_Initialize` and `Py_Finalize`
change it. -/
def engineStep (e : EngineState) : Call → EngineState
  | .Py_Initialize => .Running
  | .Py_Finalize => .Stopped
  | _ => e

/-- The engine state after a sequence of calls made from state `e`. -/
def engineAfter (e : EngineState) (t : List Call) : EngineState := t.foldl engineStep e

/-- Replaying a sequence of calls from engine state `e`: every call into the
module finds the engine Running. -/
def moduleCallsWhileRunning : EngineState → List Call → Bool
  | _, [] => true
  | e, c :: cs =>
    (if c.isModuleCall then decide (e = .Running) else true)
      && moduleCallsWhileRunning (engineStep e c) cs

/-- No call into the module comes after a `Py_Finalize` in the sequence. -/
def noModuleCallAfterFinalize : List Call → Bool
  | [] => true
  | c :: cs =>
    (if c = Call.Py_Finalize then cs.all (fun d => !d.isModuleCall) else true)
      && noModuleCallAfterFinalize cs

/-- A module whose state counts the invocations of `ReturnCustomModuleVersion`:
the first one reports `v₁`, every later one `v₂`. -/
def versionModule (v₁ v₂ : Nat) : Module Nat where
  initCustomPython := fun m => m
  InitRoutines := fun m => (0, m)
  ReturnCustomModuleVersion := fun m => (if m = 0 then v₁ else v₂, m + 1)
  NumInputsExpected := fun m => (0, m)
  NumOutputsToProvide := fun m => (0, m)
  DoCalcsAndReturnValues := fun m _ out => (0, out, m)
  WrapUpSimulation := fun m => m
  ReturnErrorMsgText := fun _ _ => sampleText

/-- An entry state for `versionModule`: no invocation counted yet. -/
def versionEntryState (e : EngineState) : State Nat :=
  ⟨7, fun _ => 0, e, 0, List.replicate 81 0, []⟩

/-- A 64-bit build whose `unsigned long int` has 32 bits, with `sBuffer` at
address `0x180403000`. -/
def build64 : Build := ⟨.w64, .w32, 0x180403000⟩

/-- A 64-bit build whose `unsigned long int` has 64 bits, with `sBuffer` at
address `0x180403000`. -/
def build64long : Build := ⟨.w64, .w64, 0x180403000⟩

/-! ## Shared lemmas: byte strings -/

theorem cString_zero_cons (rest : List Nat) : cString (0 :: rest) = [] := by
  simp [cString]

theorem cString_cons_of_ne {c : Nat} (h : c ≠ 0) (rest : List Nat) :
    cString (c :: rest) = c :: cString rest := by
  simp [cString, h]

theorem cString_of_no_nul {l : List Nat} (h : ∀ c ∈ l, c ≠ 0) : cString l = l := by
  induction l with
  | nil => rfl
  | cons a t ih =>
    have ha : a ≠ 0 := h a (List.mem_cons_self a t)
    rw [cString_cons_of_ne ha, ih (fun c hc => h c (List.mem_cons_of_mem a hc))]

theorem cString_no_nul (l : List Nat) : ∀ c ∈ cString l, c ≠ 0 := by
  intro c hc
  have := List.mem_takeWhile_imp hc
  simpa using this

/-- Reading stops at the first zero byte: zero padding and whatever follows it
are not part of the string. -/
theorem cString_append_padding {l : List Nat} (h : ∀ c ∈ l, c ≠ 0) (k : Nat)
    (rest : List Nat) : cString (l ++ (List.replicate k 0 ++ 0 :: rest)) = l := by
  induction l with
  | nil =>
    cases k with
    | zero => simp [cString]
    | succ k => simp [cString, List.replicate_succ]
  | cons a t ih =>
    have ha : a ≠ 0 := h a (List.mem_cons_self a t)
    rw [List.cons_append, cString_cons_of_ne ha,
      ih (fun c hc => h c (List.mem_cons_of_mem a hc))]

/-- What `strncpy` writes, in closed form. -/
theorem strncpyBytes_eq (src : List Nat) (n : Nat) :
    strncpyBytes src n
      = (cString src).take n ++ List.replicate (n - ((cString src).take n).length) 0 := by
  induction src generalizing n with
  | nil =>
    cases n with
    | zero => simp [strncpyBytes, cString]
    | succ n => simp [strncpyBytes, cString]
  | cons c cs ih =>
    cases n with
    | zero => simp [strncpyBytes]
    | succ n =>
      by_cases hc : c = 0
      · subst hc
        simp [strncpyBytes, cString_zero_cons]
      · rw [cString_cons_of_ne hc]
        simp [strncpyBytes, hc, ih n]

theorem strncpyBytes_length (src : List Nat) (n : Nat) : (strncpyBytes src n).length = n := by
  rw [strncpyBytes_eq]
  have : ((cString src).take n).length ≤ n := by simp
  simp only [List.length_append, List.length_replicate]
  omega

/-- The static buffer after a relay: 80 bytes written by `strncpy`, then the
zero byte left by `memset`, then whatever lay beyond the 81 bytes before. -/
theorem CopyMsgToOutputs_sBuffer (B : Build) (sMsg : List Nat) (outargs : Args)
    (sBuffer : List Nat) :
    (CopyMsgToOutputs B sMsg outargs sBuffer).2
      = strncpyBytes sMsg 80 ++ 0 :: sBuffer.drop 81 := by
  have h : (List.replicate 81 0 ++ List.drop 81 sBuffer).drop 80 = 0 :: List.drop 81 sBuffer := by
    rw [List.drop_append_of_le_length (by simp)]
    simp [List.drop_replicate]
  simp only [CopyMsgToOutputs, memset, strncpy]
  rw [h]

/-- The static buffer after a relay, read as a C string. -/
theorem CopyMsgToOutputs_cString (B : Build) (sMsg : List Nat) (outargs : Args)
    (sBuffer : List Nat) :
    cString (CopyMsgToOutputs B sMsg outargs sBuffer).2 = (cString sMsg).take 80 := by
  rw [CopyMsgToOutputs_sBuffer, strncpyBytes_eq, List.append_assoc]
  exact cString_append_padding
    (fun c hc => cString_no_nul sMsg c (List.mem_of_mem_take hc)) _ _

theorem loadULong_storeULong (w : Width) (slot v : Nat) :
    loadULong w (storeULong w slot v) = v % 2 ^ w.bits := by
  unfold loadULong storeULong
  rw [Nat.add_mod, Nat.mul_mod_left, Nat.zero_add, Nat.mod_mod, Nat.mod_mod]

/-- Slot 0 after a relay. -/
theorem CopyMsgToOutputs_slot0 (B : Build) (sMsg : List Nat) (outargs : Args)
    (sBuffer : List Nat) :
    (CopyMsgToOutputs B sMsg outargs sBuffer).1 0
      = storeULong B.ulongWidth (outargs 0) B.sBufferAddr := by
  simp [CopyMsgToOutputs, setSlot]

/-- The relay leaves every slot but slot 0 alone. -/
theorem CopyMsgToOutputs_slot_succ (B : Build) (sMsg : List Nat) (outargs : Args)
    (sBuffer : List Nat) (k : Nat) :
    (CopyMsgToOutputs B sMsg outargs sBuffer).1 (k + 1) = outargs (k + 1) := by
  simp [CopyMsgToOutputs, setSlot]

/-! ## Shared lemmas: constants and lifecycle steps -/

theorem XFConstants.success_ne_msg (K : XFConstants) : K.XF_SUCCESS ≠ K.XF_FAILURE_WITH_MSG := by
  have h := K.status_nodup
  simp at h
  exact h.1.2

theorem XFConstants.success_ne_failure (K : XFConstants) : K.XF_SUCCESS ≠ K.XF_FAILURE := by
  have h := K.status_nodup
  simp at h
  exact h.1.1

theorem XFConstants.failure_ne_msg (K : XFConstants) : K.XF_FAILURE ≠ K.XF_FAILURE_WITH_MSG := by
  have h := K.status_nodup
  simp at h
  exact h.2

section StepLemmas

variable {M : Type}

theorem ensure_running_engine (mod : Module M) (s : State M) :
    (ensure_running mod s).engine = .Running := by
  cases h : s.engine <;> simp [ensure_running, Py_IsInitialized, Py_Initialize, initCustomPython, h]

theorem ensure_running_status (mod : Module M) (s : State M) :
    (ensure_running mod s).status = s.status := by
  cases h : s.engine <;> simp [ensure_running, Py_IsInitialized, Py_Initialize, initCustomPython, h]

theorem ensure_running_outargs (mod : Module M) (s : State M) :
    (ensure_running mod s).outargs = s.outargs := by
  cases h : s.engine <;> simp [ensure_running, Py_IsInitialized, Py_Initialize, initCustomPython, h]

theorem ensure_running_sBuffer (mod : Module M) (s : State M) :
    (ensure_running mod s).sBuffer = s.sBuffer := by
  cases h : s.engine <;> simp [ensure_running, Py_IsInitialized, Py_Initialize, initCustomPython, h]

/-- The calls made by the start pattern. -/
theorem ensure_running_trace (mod : Module M) (s : State M) :
    (ensure_running mod s).trace = s.trace ++ startCalls s.engine := by
  cases h : s.engine <;>
    simp [ensure_running, Py_IsInitialized, Py_Initialize, initCustomPython, startCalls, h]

theorem ensure_running_module (mod : Module M) (s : State M) :
    (ensure_running mod s).module = startModule mod s.engine s.module := by
  cases h : s.engine <;>
    simp [ensure_running, Py_IsInitialized, Py_Initialize, initCustomPython, startModule, h]

theorem stop_engine (s : State M) : (stop s).engine = .Stopped := by
  cases h : s.engine <;> simp [stop, Py_IsInitialized, Py_Finalize, h]

theorem stop_status (s : State M) : (stop s).status = s.status := by
  cases h : s.engine <;> simp [stop, Py_IsInitialized, Py_Finalize, h]

theorem stop_outargs (s : State M) : (stop s).outargs = s.outargs := by
  cases h : s.engine <;> simp [stop, Py_IsInitialized, Py_Finalize, h]

theorem stop_sBuffer (s : State M) : (stop s).sBuffer = s.sBuffer := by
  cases h : s.engine <;> simp [stop, Py_IsInitialized, Py_Finalize, h]

theorem stop_module (s : State M) : (stop s).module = s.module := by
  cases h : s.engine <;> simp [stop, Py_IsInitialized, Py_Finalize, h]

/-- The stop pattern entered with the engine up makes one call, `Py_Finalize`. -/
theorem stop_trace_of_running (s : State M) (h : s.engine = .Running) :
    (stop s).trace = s.trace ++ [Call.Py_Finalize] := by
  simp [stop, Py_IsInitialized, Py_Finalize, h]

theorem ReturnErrorMsg_status (B : Build) (mod : Module M) (code : Int) (s : State M) :
    (ReturnErrorMsg B mod code s).status = s.status := rfl

theorem ReturnErrorMsg_engine (B : Build) (mod : Module M) (code : Int) (s : State M) :
    (ReturnErrorMsg B mod code s).engine = s.engine := rfl

theorem ReturnErrorMsg_module (B : Build) (mod : Module M) (code : Int) (s : State M) :
    (ReturnErrorMsg B mod code s).module = s.module := rfl

theorem ReturnErrorMsg_trace (B : Build) (mod : Module M) (code : Int) (s : State M) :
    (ReturnErrorMsg B mod code s).trace
      = s.trace ++ [Call.ReturnErrorMsg code (mod.ReturnErrorMsgText s.module code)] := rfl

theorem ReturnErrorMsg_slot0 (B : Build) (mod : Module M) (code : Int) (s : State M) :
    (ReturnErrorMsg B mod code s).outargs 0
      = storeULong B.ulongWidth (s.outargs 0) B.sBufferAddr := by
  simp [ReturnErrorMsg, CopyMsgToOutputs_slot0]

theorem ReturnErrorMsg_slot_succ (B : Build) (mod : Module M) (code : Int) (s : State M)
    (k : Nat) : (ReturnErrorMsg B mod code s).outargs (k + 1) = s.outargs (k + 1) := by
  simp [ReturnErrorMsg, CopyMsgToOutputs_slot_succ]

theorem ReturnErrorMsg_cString (B : Build) (mod : Module M) (code : Int) (s : State M) :
    cString (ReturnErrorMsg B mod code s).sBuffer
      = (cString (mod.ReturnErrorMsgText s.module code)).take 80 := by
  simp [ReturnErrorMsg, CopyMsgToOutputs_cString]

/-! ### Which case a method identifier selects -/

theorem XFConstants.methods_ne (K : XFConstants) :
    K.XF_INITIALIZE ≠ K.XF_REP_VERSION ∧ K.XF_INITIALIZE ≠ K.XF_REP_ARGUMENTS
      ∧ K.XF_INITIALIZE ≠ K.XF_CALCULATE ∧ K.XF_INITIALIZE ≠ K.XF_CLEANUP
      ∧ K.XF_REP_VERSION ≠ K.XF_REP_ARGUMENTS ∧ K.XF_REP_VERSION ≠ K.XF_CALCULATE
      ∧ K.XF_REP_VERSION ≠ K.XF_CLEANUP ∧ K.XF_REP_ARGUMENTS ≠ K.XF_CALCULATE
      ∧ K.XF_REP_ARGUMENTS ≠ K.XF_CLEANUP ∧ K.XF_CALCULATE ≠ K.XF_CLEANUP := by
  have h := K.methods_nodup
  simp at h
  tauto

theorem CustomPython_at_INITIALIZE (K : XFConstants) (B : Build) (mod : Module M)
    (inargs : Args) (s : State M) :
    CustomPython K B mod K.XF_INITIALIZE inargs s
      = caseInitialize K B mod { s with status := K.XF_FAILURE } := by
  simp [CustomPython]

theorem CustomPython_at_REP_VERSION (K : XFConstants) (B : Build) (mod : Module M)
    (inargs : Args) (s : State M) :
    CustomPython K B mod K.XF_REP_VERSION inargs s
      = caseRepVersion K B mod { s with status := K.XF_FAILURE } := by
  obtain ⟨h1, -⟩ := K.methods_ne
  simp [CustomPython, Ne.symm h1]

theorem CustomPython_at_REP_ARGUMENTS (K : XFConstants) (B : Build) (mod : Module M)
    (inargs : Args) (s : State M) :
    CustomPython K B mod K.XF_REP_ARGUMENTS inargs s
      = caseRepArguments K B mod { s with status := K.XF_FAILURE } := by
  obtain ⟨-, h2, -, -, h5, -⟩ := K.methods_ne
  simp [CustomPython, Ne.symm h2, Ne.symm h5]

theorem CustomPython_at_CALCULATE (K : XFConstants) (B : Build) (mod : Module M)
    (inargs : Args) (s : State M) :
    CustomPython K B mod K.XF_CALCULATE inargs s
      = caseCalculate K B mod inargs { s with status := K.XF_FAILURE } := by
  obtain ⟨-, -, h3, -, -, h6, -, h8, -⟩ := K.methods_ne
  simp [CustomPython, Ne.symm h3, Ne.symm h6, Ne.symm h8]

theorem CustomPython_at_CLEANUP (K : XFConstants) (B : Build) (mod : Module M)
    (inargs : Args) (s : State M) :
    CustomPython K B mod K.XF_CLEANUP inargs s
      = caseCleanup K mod { s with status := K.XF_FAILURE } := by
  obtain ⟨-, -, -, h4, -, -, h7, -, h9, h10⟩ := K.methods_ne
  simp [CustomPython, Ne.symm h4, Ne.symm h7, Ne.symm h9, Ne.symm h10]

theorem CustomPython_at_other (K : XFConstants) (B : Build) (mod : Module M)
    (methodID : Int) (inargs : Args) (s : State M)
    (hI : methodID ≠ K.XF_INITIALIZE) (hV : methodID ≠ K.XF_REP_VERSION)
    (hA : methodID ≠ K.XF_REP_ARGUMENTS) (hC : methodID ≠ K.XF_CALCULATE)
    (hU : methodID ≠ K.XF_CLEANUP) :
    CustomPython K B mod methodID inargs s
      = caseDefault K B mod { s with status := K.XF_FAILURE } := by
  simp [CustomPython, hI, hV, hA, hC, hU]

/-- What `case XF_REP_ARGUMENTS` leaves behind, in terms of the two values the
module reports: `i` from `NumInputsExpected` and `o` from `NumOutputsToProvide`. -/
theorem caseRepArguments_effect (K : XFConstants) (B : Build) (mod : Module M) (s : State M)
    (i o : Int) (m₁ m₂ : M)
    (hi : mod.NumInputsExpected (startModule mod s.engine s.module) = (i, m₁))
    (ho : mod.NumOutputsToProvide m₁ = (o, m₂)) :
    (caseRepArguments K B mod s).status
        = (if o < 0 then K.XF_FAILURE_WITH_MSG else K.XF_SUCCESS)
      ∧ (caseRepArguments K B mod s).engine
        = (if i < 0 ∨ o < 0 then EngineState.Stopped else EngineState.Running)
      ∧ (caseRepArguments K B mod s).module = m₂
      ∧ (caseRepArguments K B mod s).outargs 0
        = (if o < 0 then storeULong B.ulongWidth (doubleOfInt i) B.sBufferAddr
            else doubleOfInt i)
      ∧ (caseRepArguments K B mod s).outargs 1 = doubleOfInt o
      ∧ (caseRepArguments K B mod s).trace
        = s.trace ++ startCalls s.engine ++ [Call.NumInputsExpected]
          ++ (if i < 0 then
                [Call.ReturnErrorMsg K.XF_REP_ARGUMENTS
                  (mod.ReturnErrorMsgText m₁ K.XF_REP_ARGUMENTS)]
              else [])
          ++ [Call.NumOutputsToProvide]
          ++ (if o < 0 then
                [Call.ReturnErrorMsg K.XF_REP_ARGUMENTS
                  (mod.ReturnErrorMsgText m₂ K.XF_REP_ARGUMENTS)]
              else [])
          ++ (if i < 0 ∨ o < 0 then [Call.Py_Finalize] else [])
      ∧ (o < 0 → cString (caseRepArguments K B mod s).sBuffer
          = (cString (mod.ReturnErrorMsgText m₂ K.XF_REP_ARGUMENTS)).take 80) := by
  have hm := ensure_running_module mod s
  have he := ensure_running_engine mod s
  have ht := ensure_running_trace mod s
  by_cases h3 : i < 0 <;> by_cases h4 : o < 0 <;>
    simp [caseRepArguments, hm, he, ht, hi, ho, h3, h4, stop_status, stop_engine, stop_module,
      stop_outargs, stop_sBuffer, stop_trace_of_running, ReturnErrorMsg_status,
      ReturnErrorMsg_engine, ReturnErrorMsg_module, ReturnErrorMsg_trace, ReturnErrorMsg_slot0,
      ReturnErrorMsg_slot_succ, ReturnErrorMsg_cString, setSlot]

/-- What `case XF_INITIALIZE` leaves behind, in terms of the value `r` that
`InitRoutines` returns. -/
theorem caseInitialize_effect (K : XFConstants) (B : Build) (mod : Module M) (s : State M)
    (r : Int) (m₁ : M)
    (hr : mod.InitRoutines (startModule mod s.engine s.module) = (r, m₁)) :
    (caseInitialize K B mod s).status
        = (if r = 1 then K.XF_FAILURE_WITH_MSG else K.XF_SUCCESS)
      ∧ (caseInitialize K B mod s).engine
        = (if r = 1 then EngineState.Stopped else EngineState.Running)
      ∧ (caseInitialize K B mod s).module = m₁
      ∧ (caseInitialize K B mod s).trace
        = s.trace ++ startCalls s.engine ++ [Call.InitRoutines]
          ++ (if r = 1 then
                [Call.ReturnErrorMsg K.XF_INITIALIZE (mod.ReturnErrorMsgText m₁ K.XF_INITIALIZE),
                  Call.Py_Finalize]
              else [])
      ∧ (caseInitialize K B mod s).outargs 0
        = (if r = 1 then storeULong B.ulongWidth (s.outargs 0) B.sBufferAddr else s.outargs 0)
      ∧ (r = 1 → cString (caseInitialize K B mod s).sBuffer
          = (cString (mod.ReturnErrorMsgText m₁ K.XF_INITIALIZE)).take 80) := by
  have hm := ensure_running_module mod s
  have he := ensure_running_engine mod s
  have ht := ensure_running_trace mod s
  have ho := ensure_running_outargs mod s
  by_cases h1 : r = 1 <;>
    simp [caseInitialize, hm, he, ht, ho, hr, h1, stop_status, stop_engine, stop_module,
      stop_outargs, stop_sBuffer, stop_trace_of_running, ReturnErrorMsg_status,
      ReturnErrorMsg_engine, ReturnErrorMsg_module, ReturnErrorMsg_trace, ReturnErrorMsg_slot0,
      ReturnErrorMsg_cString]

/-- What `case XF_REP_VERSION` leaves behind, in terms of the value `v` of the
first `ReturnCustomModuleVersion` and the value `v₂` a second one yields. -/
theorem caseRepVersion_effect (K : XFConstants) (B : Build) (mod : Module M) (s : State M)
    (v v₂ : Nat) (m₁ m₂ : M)
    (hv : mod.ReturnCustomModuleVersion (startModule mod s.engine s.module) = (v, m₁))
    (hv₂ : mod.ReturnCustomModuleVersion m₁ = (v₂, m₂)) :
    (caseRepVersion K B mod s).status
        = (if doubleGtZero v then K.XF_SUCCESS else K.XF_FAILURE_WITH_MSG)
      ∧ (caseRepVersion K B mod s).engine
        = (if doubleGtZero v then EngineState.Running else EngineState.Stopped)
      ∧ (caseRepVersion K B mod s).module = (if doubleGtZero v then m₂ else m₁)
      ∧ (caseRepVersion K B mod s).trace
        = s.trace ++ startCalls s.engine ++ [Call.ReturnCustomModuleVersion]
          ++ (if doubleGtZero v then [Call.ReturnCustomModuleVersion]
              else
                [Call.ReturnErrorMsg K.XF_REP_VERSION
                    (mod.ReturnErrorMsgText m₁ K.XF_REP_VERSION),
                  Call.Py_Finalize])
      ∧ (caseRepVersion K B mod s).outargs 0
        = (if doubleGtZero v then v₂
            else storeULong B.ulongWidth (s.outargs 0) B.sBufferAddr)
      ∧ (doubleGtZero v = false → cString (caseRepVersion K B mod s).sBuffer
          = (cString (mod.ReturnErrorMsgText m₁ K.XF_REP_VERSION)).take 80) := by
  have hm := ensure_running_module mod s
  have he := ensure_running_engine mod s
  have ht := ensure_running_trace mod s
  have ho := ensure_running_outargs mod s
  cases h1 : doubleGtZero v <;>
    simp [caseRepVersion, hm, he, ht, ho, hv, hv₂, h1, stop_status, stop_engine, stop_module,
      stop_outargs, stop_sBuffer, stop_trace_of_running, ReturnErrorMsg_status,
      ReturnErrorMsg_engine, ReturnErrorMsg_module, ReturnErrorMsg_trace, ReturnErrorMsg_slot0,
      ReturnErrorMsg_cString, setSlot]

/-- What `case XF_CALCULATE` leaves behind, in terms of the outcome `r` of
`DoCalcsAndReturnValues` and the `outargs` it hands back. -/
theorem caseCalculate_effect (K : XFConstants) (B : Build) (mod : Module M) (inargs : Args)
    (s : State M) (r : Int) (out : Args) (m₁ : M)
    (hc : mod.DoCalcsAndReturnValues (startModule mod s.engine s.module) inargs s.outargs
      = (r, out, m₁)) :
    (caseCalculate K B mod inargs s).status
        = (if r ≠ 0 then K.XF_FAILURE_WITH_MSG else K.XF_SUCCESS)
      ∧ (caseCalculate K B mod inargs s).engine
        = (if r ≠ 0 then EngineState.Stopped else EngineState.Running)
      ∧ (caseCalculate K B mod inargs s).module = m₁
      ∧ (caseCalculate K B mod inargs s).trace
        = s.trace ++ startCalls s.engine ++ [Call.DoCalcsAndReturnValues]
          ++ (if r ≠ 0 then
                [Call.ReturnErrorMsg K.XF_CALCULATE (mod.ReturnErrorMsgText m₁ K.XF_CALCULATE),
                  Call.Py_Finalize]
              else [])
      ∧ (caseCalculate K B mod inargs s).outargs 0
        = (if r ≠ 0 then storeULong B.ulongWidth (out 0) B.sBufferAddr else out 0)
      ∧ (∀ k, (caseCalculate K B mod inargs s).outargs (k + 1) = out (k + 1))
      ∧ (r ≠ 0 → cString (caseCalculate K B mod inargs s).sBuffer
          = (cString (mod.ReturnErrorMsgText m₁ K.XF_CALCULATE)).take 80) := by
  have hm := ensure_running_module mod s
  have he := ensure_running_engine mod s
  have ht := ensure_running_trace mod s
  have ho := ensure_running_outargs mod s
  by_cases h1 : r = 0 <;>
    simp [caseCalculate, hm, he, ht, ho, hc, h1, stop_status, stop_engine, stop_module,
      stop_outargs, stop_sBuffer, stop_trace_of_running, ReturnErrorMsg_status,
      ReturnErrorMsg_engine, ReturnErrorMsg_module, ReturnErrorMsg_trace, ReturnErrorMsg_slot0,
      ReturnErrorMsg_slot_succ, ReturnErrorMsg_cString]

/-- What `case XF_CLEANUP` leaves behind. -/
theorem caseCleanup_effect (K : XFConstants) (mod : Module M) (s : State M) :
    (caseCleanup K mod s).status = K.XF_SUCCESS
      ∧ (caseCleanup K mod s).engine = EngineState.Stopped
      ∧ (caseCleanup K mod s).module
        = mod.WrapUpSimulation (startModule mod s.engine s.module)
      ∧ (caseCleanup K mod s).trace
        = s.trace ++ startCalls s.engine ++ [Call.WrapUpSimulation, Call.Py_Finalize]
      ∧ (caseCleanup K mod s).outargs = s.outargs
      ∧ (caseCleanup K mod s).sBuffer = s.sBuffer := by
  have hm := ensure_running_module mod s
  have he := ensure_running_engine mod s
  have ht := ensure_running_trace mod s
  have ho := ensure_running_outargs mod s
  have hb := ensure_running_sBuffer mod s
  simp [caseCleanup, hm, he, ht, ho, hb, stop_status, stop_engine, stop_module,
    stop_outargs, stop_sBuffer, stop_trace_of_running]

/-- What the `default` case leaves behind. -/
theorem caseDefault_effect (K : XFConstants) (B : Build) (mod : Module M) (s : State M) :
    (caseDefault K B mod s).status = K.XF_FAILURE_WITH_MSG
      ∧ (caseDefault K B mod s).engine = EngineState.Stopped
      ∧ (caseDefault K B mod s).module = startModule mod s.engine s.module
      ∧ (caseDefault K B mod s).trace
        = s.trace ++ startCalls s.engine
          ++ [Call.ReturnErrorMsg 5 (mod.ReturnErrorMsgText (startModule mod s.engine s.module) 5),
            Call.Py_Finalize]
      ∧ (caseDefault K B mod s).outargs 0
        = storeULong B.ulongWidth (s.outargs 0) B.sBufferAddr
      ∧ cString (caseDefault K B mod s).sBuffer
        = (cString (mod.ReturnErrorMsgText (startModule mod s.engine s.module) 5)).take 80 := by
  have hm := ensure_running_module mod s
  have he := ensure_running_engine mod s
  have ht := ensure_running_trace mod s
  have ho := ensure_running_outargs mod s
  simp [caseDefault, hm, he, ht, ho, stop_status, stop_engine, stop_module,
    stop_outargs, stop_sBuffer, stop_trace_of_running, ReturnErrorMsg_status,
    ReturnErrorMsg_engine, ReturnErrorMsg_module, ReturnErrorMsg_trace, ReturnErrorMsg_slot0,
    ReturnErrorMsg_cString]

/-- An Initialize entered with the engine Stopped begins with the engine start
and then calls `InitRoutines`. -/
theorem XF_INITIALIZE_trace_of_stopped (K : XFConstants) (B : Build) (mod : Module M)
    (inargs : Args) (s : State M) (h : s.engine = .Stopped) :
    ∃ rest, (CustomPython K B mod K.XF_INITIALIZE inargs s).trace
      = s.trace ++ Call.Py_Initialize :: Call.initCustomPython :: Call.InitRoutines :: rest := by
  rw [CustomPython_at_INITIALIZE]
  rcases hr : mod.InitRoutines (startModule mod s.engine s.module) with ⟨r, m₁⟩
  obtain ⟨-, -, -, ht, -⟩ :=
    caseInitialize_effect K B mod { s with status := K.XF_FAILURE } r m₁ hr
  refine ⟨if r = 1 then
      [Call.ReturnErrorMsg K.XF_INITIALIZE (mod.ReturnErrorMsgText m₁ K.XF_INITIALIZE),
        Call.Py_Finalize]
    else [], ?_⟩
  rw [ht]
  simp only [h, startCalls, List.append_assoc, List.cons_append, List.nil_append]

theorem doubleGtZero_of_leZero {d : Nat} (h : doubleLeZero d = true) :
    doubleGtZero d = false := by
  simp only [doubleLeZero, decide_eq_true_eq] at h
  simp only [doubleGtZero, decide_eq_false_iff_not]
  omega

/-- On the failing path of `case XF_REP_VERSION` the relay is the only write to
`outargs`: every slot but slot 0 is as on entry. -/
theorem caseRepVersion_slot_succ_of_not_gt (K : XFConstants) (B : Build) (mod : Module M)
    (s : State M) (v : Nat) (m₁ : M)
    (hv : mod.ReturnCustomModuleVersion (startModule mod s.engine s.module) = (v, m₁))
    (hneg : doubleGtZero v = false) (k : Nat) :
    (caseRepVersion K B mod s).outargs (k + 1) = s.outargs (k + 1) := by
  have hm := ensure_running_module mod s
  have ho := ensure_running_outargs mod s
  simp [caseRepVersion, hm, ho, hv, hneg, stop_outargs, ReturnErrorMsg_slot_succ]

/-- Slot 0 after a relay, read back at a width that `unsigned long int` covers. -/
theorem loadPointer_storeULong (p w : Width) (slot v : Nat) (hpw : p.bits ≤ w.bits)
    (hv : v < 2 ^ p.bits) : loadPointer p (storeULong w slot v) = v := by
  have hdvd : 2 ^ p.bits ∣ 2 ^ w.bits := Nat.pow_dvd_pow 2 hpw
  have h := loadULong_storeULong w slot v
  unfold loadULong at h
  unfold loadPointer
  rw [← Nat.mod_mod_of_dvd (storeULong w slot v) hdvd, h, Nat.mod_mod_of_dvd v hdvd,
    Nat.mod_eq_of_lt hv]

/-- Every call of `CustomPython` ends either with `XF_SUCCESS`, or with
`XF_FAILURE_WITH_MSG` after a `ReturnErrorMsg` followed by `Py_Finalize`. -/
theorem CustomPython_success_or_relayed (K : XFConstants) (B : Build) (mod : Module M)
    (methodID : Int) (inargs : Args) (s : State M) :
    (CustomPython K B mod methodID inargs s).status = K.XF_SUCCESS
      ∨ ((CustomPython K B mod methodID inargs s).status = K.XF_FAILURE_WITH_MSG
        ∧ ∃ (pre : List Call) (code : Int) (text : List Nat),
            (CustomPython K B mod methodID inargs s).trace
              = s.trace ++ pre ++ [Call.ReturnErrorMsg code text, Call.Py_Finalize]) := by
  by_cases hI : methodID = K.XF_INITIALIZE
  · subst hI
    rw [CustomPython_at_INITIALIZE]
    rcases hr : mod.InitRoutines (startModule mod s.engine s.module) with ⟨r, m₁⟩
    obtain ⟨hs, -, -, ht, -⟩ :=
      caseInitialize_effect K B mod { s with status := K.XF_FAILURE } r m₁ hr
    by_cases h : r = 1
    · refine Or.inr ⟨by rw [hs, if_pos h], startCalls s.engine ++ [Call.InitRoutines],
        K.XF_INITIALIZE, mod.ReturnErrorMsgText m₁ K.XF_INITIALIZE, ?_⟩
      rw [ht, if_pos h]; simp
    · exact Or.inl (by rw [hs, if_neg h])
  by_cases hV : methodID = K.XF_REP_VERSION
  · subst hV
    rw [CustomPython_at_REP_VERSION]
    rcases hv : mod.ReturnCustomModuleVersion (startModule mod s.engine s.module) with ⟨v, m₁⟩
    rcases hv₂ : mod.ReturnCustomModuleVersion m₁ with ⟨v₂, m₂⟩
    obtain ⟨hs, -, -, ht, -⟩ :=
      caseRepVersion_effect K B mod { s with status := K.XF_FAILURE } v v₂ m₁ m₂ hv hv₂
    cases h : doubleGtZero v
    · refine Or.inr ⟨by rw [hs]; simp [h],
        startCalls s.engine ++ [Call.ReturnCustomModuleVersion],
        K.XF_REP_VERSION, mod.ReturnErrorMsgText m₁ K.XF_REP_VERSION, ?_⟩
      rw [ht]; simp [h]
    · exact Or.inl (by rw [hs]; simp [h])
  by_cases hA : methodID = K.XF_REP_ARGUMENTS
  · subst hA
    rw [CustomPython_at_REP_ARGUMENTS]
    rcases hi : mod.NumInputsExpected (startModule mod s.engine s.module) with ⟨i, m₁⟩
    rcases hq : mod.NumOutputsToProvide m₁ with ⟨o, m₂⟩
    obtain ⟨hs, -, -, -, -, ht, -⟩ :=
      caseRepArguments_effect K B mod { s with status := K.XF_FAILURE } i o m₁ m₂ hi hq
    by_cases h : o < 0
    · refine Or.inr ⟨by rw [hs, if_pos h],
        startCalls s.engine ++ [Call.NumInputsExpected]
          ++ (if i < 0 then
                [Call.ReturnErrorMsg K.XF_REP_ARGUMENTS
                  (mod.ReturnErrorMsgText m₁ K.XF_REP_ARGUMENTS)]
              else [])
          ++ [Call.NumOutputsToProvide],
        K.XF_REP_ARGUMENTS, mod.ReturnErrorMsgText m₂ K.XF_REP_ARGUMENTS, ?_⟩
      rw [ht]; simp [h]
    · exact Or.inl (by rw [hs, if_neg h])
  by_cases hC : methodID = K.XF_CALCULATE
  · subst hC
    rw [CustomPython_at_CALCULATE]
    rcases hc : mod.DoCalcsAndReturnValues (startModule mod s.engine s.module) inargs s.outargs
      with ⟨r, out, m₁⟩
    obtain ⟨hs, -, -, ht, -⟩ :=
      caseCalculate_effect K B mod inargs { s with status := K.XF_FAILURE } r out m₁ hc
    by_cases h : r ≠ 0
    · refine Or.inr ⟨by rw [hs, if_pos h],
        startCalls s.engine ++ [Call.DoCalcsAndReturnValues],
        K.XF_CALCULATE, mod.ReturnErrorMsgText m₁ K.XF_CALCULATE, ?_⟩
      rw [ht, if_pos h]; simp
    · exact Or.inl (by rw [hs, if_neg h])
  by_cases hU : methodID = K.XF_CLEANUP
  · subst hU
    rw [CustomPython_at_CLEANUP]
    exact Or.inl (caseCleanup_effect K mod _).1
  · rw [CustomPython_at_other K B mod methodID inargs s hI hV hA hC hU]
    obtain ⟨hs, -, -, ht, -⟩ := caseDefault_effect K B mod { s with status := K.XF_FAILURE }
    exact Or.inr ⟨hs, startCalls s.engine, 5,
      mod.ReturnErrorMsgText (startModule mod s.engine s.module) 5, by rw [ht]⟩

/-- Replaying a call trace that opens with the start pattern: after the start
the engine is Running, and the start contributes one `Py_Initialize` exactly
when the engine was Stopped. -/
theorem replay_after_start (e e' : EngineState) (X : List Call)
    (h1 : Call.Py_Initialize ∉ X)
    (h2 : moduleCallsWhileRunning .Running X = true)
    (h3 : noModuleCallAfterFinalize X = true)
    (h4 : engineAfter .Running X = e') :
    (startCalls e ++ X).count Call.Py_Initialize = (if e = .Stopped then 1 else 0)
      ∧ moduleCallsWhileRunning e (startCalls e ++ X) = true
      ∧ noModuleCallAfterFinalize (startCalls e ++ X) = true
      ∧ engineAfter e (startCalls e ++ X) = e' := by
  have hc : X.count Call.Py_Initialize = 0 := List.count_eq_zero_of_not_mem h1
  cases e
  · refine ⟨?_, ?_, ?_, ?_⟩
    · simp [startCalls, hc]
    · simpa [startCalls, moduleCallsWhileRunning, Call.isModuleCall, engineStep] using h2
    · simpa [startCalls, noModuleCallAfterFinalize] using h3
    · simpa [startCalls, engineAfter, engineStep] using h4
  · refine ⟨?_, ?_, ?_, ?_⟩
    · simp [startCalls, hc]
    · simpa [startCalls] using h2
    · simpa [startCalls] using h3
    · simpa [startCalls] using h4

/-- A slot whose first `unsigned long` holds an address reduced to that width
reads back as the address itself at every width that `unsigned long int` covers. -/
theorem loadPointer_of_loadULong (p w : Width) (slot v : Nat)
    (h : loadULong w slot = v % 2 ^ w.bits) (hpw : p.bits ≤ w.bits) (hv : v < 2 ^ p.bits) :
    loadPointer p slot = v := by
  have hdvd : 2 ^ p.bits ∣ 2 ^ w.bits := Nat.pow_dvd_pow 2 hpw
  unfold loadULong at h
  unfold loadPointer
  rw [← Nat.mod_mod_of_dvd slot hdvd, h, Nat.mod_mod_of_dvd v hdvd, Nat.mod_eq_of_lt hv]

/-- The store through the `unsigned long int *` leaves the bytes of the slot
beyond the `unsigned long` as they were. -/
theorem storeULong_div (w : Width) (slot v : Nat) :
    storeULong w slot v / 2 ^ w.bits = slot % 2 ^ 64 / 2 ^ w.bits := by
  have hpos : 0 < 2 ^ w.bits := Nat.pow_pos (by decide)
  unfold storeULong
  rw [Nat.add_comm, Nat.add_mul_div_right _ _ hpos, Nat.div_eq_of_lt (Nat.mod_lt _ hpos),
    Nat.zero_add]

end StepLemmas

/-! ## The claims -/

section Claims

variable {M : Type}

/-- C1: for every methodID, every engine state on entry, every prior value of
the caller's status and every module, the status after `CustomPython` is
exactly one of `XF_SUCCESS`, `XF_FAILURE`, `XF_FAILURE_WITH_MSG`, and it does not
depend on the value the caller left there. -/
theorem CustomPython_status_is_set (K : XFConstants) (B : Build) (mod : Module M)
    (methodID : Int) (inargs : Args) (s : State M) :
    ((CustomPython K B mod methodID inargs s).status = K.XF_SUCCESS
        ∧ (CustomPython K B mod methodID inargs s).status ≠ K.XF_FAILURE
        ∧ (CustomPython K B mod methodID inargs s).status ≠ K.XF_FAILURE_WITH_MSG
      ∨ (CustomPython K B mod methodID inargs s).status ≠ K.XF_SUCCESS
        ∧ (CustomPython K B mod methodID inargs s).status = K.XF_FAILURE
        ∧ (CustomPython K B mod methodID inargs s).status ≠ K.XF_FAILURE_WITH_MSG
      ∨ (CustomPython K B mod methodID inargs s).status ≠ K.XF_SUCCESS
        ∧ (CustomPython K B mod methodID inargs s).status ≠ K.XF_FAILURE
        ∧ (CustomPython K B mod methodID inargs s).status = K.XF_FAILURE_WITH_MSG)
    ∧ ∀ prior : Int,
        (CustomPython K B mod methodID inargs { s with status := prior }).status
          = (CustomPython K B mod methodID inargs s).status := by
  have h1 := K.success_ne_msg
  have h2 := K.success_ne_failure
  have h3 := K.failure_ne_msg
  refine ⟨?_, fun prior => rfl⟩
  unfold CustomPython
  split_ifs
  · simp only [caseInitialize]
    split_ifs <;> simp [stop_status, ReturnErrorMsg_status, h1, h2, h3, Ne.symm h1, Ne.symm h2, Ne.symm h3]
  · simp only [caseRepVersion]
    split_ifs <;> simp [stop_status, ReturnErrorMsg_status, h1, h2, h3, Ne.symm h1, Ne.symm h2, Ne.symm h3]
  · simp only [caseRepArguments]
    split_ifs <;> simp [stop_status, ReturnErrorMsg_status, h1, h2, h3, Ne.symm h1, Ne.symm h2, Ne.symm h3]
  · simp only [caseCalculate]
    split_ifs <;> simp [stop_status, ReturnErrorMsg_status, h1, h2, h3, Ne.symm h1, Ne.symm h2, Ne.symm h3]
  · simp [caseCleanup, stop_status, h1, h2]
  · simp [caseDefault, stop_status, ReturnErrorMsg_status, h1, h2, h3, Ne.symm h1, Ne.symm h3]

/-- The relay behind every `XF_FAILURE_WITH_MSG`: the call has made a
`ReturnErrorMsg` with the method's identifier (5 for an unrecognized method) and
none after it, the first `unsigned long` of slot 0 holds the buffer address
reduced to that width, and the buffer read as a C string is the relayed text
cut to 80 characters. -/
theorem failure_msg_relayed (K : XFConstants) (B : Build) (mod : Module M)
    (methodID : Int) (inargs : Args) (s : State M)
    (hfail : (CustomPython K B mod methodID inargs s).status = K.XF_FAILURE_WITH_MSG) :
    ∃ (pre post : List Call) (text : List Nat),
      (CustomPython K B mod methodID inargs s).trace
          = s.trace ++ pre
            ++ Call.ReturnErrorMsg
                (if methodID = K.XF_INITIALIZE ∨ methodID = K.XF_REP_VERSION
                    ∨ methodID = K.XF_REP_ARGUMENTS ∨ methodID = K.XF_CALCULATE
                  then methodID else 5) text
              :: post
        ∧ (∀ c t, Call.ReturnErrorMsg c t ∉ post)
        ∧ loadULong B.ulongWidth ((CustomPython K B mod methodID inargs s).outargs 0)
            = B.sBufferAddr % 2 ^ B.ulongWidth.bits
        ∧ cString (CustomPython K B mod methodID inargs s).sBuffer = (cString text).take 80 := by
  have h1 := K.success_ne_msg
  by_cases hI : methodID = K.XF_INITIALIZE
  · subst hI
    simp only [true_or, if_true]
    rw [CustomPython_at_INITIALIZE] at hfail ⊢
    rcases hr : mod.InitRoutines (startModule mod s.engine s.module) with ⟨r, m₁⟩
    obtain ⟨hs, -, -, ht, ho, hb⟩ :=
      caseInitialize_effect K B mod { s with status := K.XF_FAILURE } r m₁ hr
    by_cases h : r = 1
    · refine ⟨startCalls s.engine ++ [Call.InitRoutines], [Call.Py_Finalize], _, ?_,
        by simp, ?_, hb h⟩
      · rw [ht]; simp [h]
      · rw [ho, if_pos h, loadULong_storeULong]
    · rw [hs, if_neg h] at hfail
      exact absurd hfail h1
  by_cases hV : methodID = K.XF_REP_VERSION
  · subst hV
    simp only [true_or, or_true, if_true]
    rw [CustomPython_at_REP_VERSION] at hfail ⊢
    rcases hv : mod.ReturnCustomModuleVersion (startModule mod s.engine s.module) with ⟨v, m₁⟩
    rcases hv₂ : mod.ReturnCustomModuleVersion m₁ with ⟨v₂, m₂⟩
    obtain ⟨hs, -, -, ht, ho, hb⟩ :=
      caseRepVersion_effect K B mod { s with status := K.XF_FAILURE } v v₂ m₁ m₂ hv hv₂
    cases h : doubleGtZero v
    · refine ⟨startCalls s.engine ++ [Call.ReturnCustomModuleVersion], [Call.Py_Finalize], _,
        ?_, by simp, ?_, hb h⟩
      · rw [ht]; simp [h]
      · rw [ho]; simp [h, loadULong_storeULong]
    · rw [hs] at hfail
      simp [h] at hfail
      exact absurd hfail h1
  by_cases hA : methodID = K.XF_REP_ARGUMENTS
  · subst hA
    simp only [true_or, or_true, if_true]
    rw [CustomPython_at_REP_ARGUMENTS] at hfail ⊢
    rcases hi : mod.NumInputsExpected (startModule mod s.engine s.module) with ⟨i, m₁⟩
    rcases hq : mod.NumOutputsToProvide m₁ with ⟨o, m₂⟩
    obtain ⟨hs, -, -, ho, -, ht, hb⟩ :=
      caseRepArguments_effect K B mod { s with status := K.XF_FAILURE } i o m₁ m₂ hi hq
    by_cases h : o < 0
    · refine ⟨startCalls s.engine ++ [Call.NumInputsExpected]
          ++ (if i < 0 then
                [Call.ReturnErrorMsg K.XF_REP_ARGUMENTS
                  (mod.ReturnErrorMsgText m₁ K.XF_REP_ARGUMENTS)]
              else [])
          ++ [Call.NumOutputsToProvide], [Call.Py_Finalize], _, ?_, by simp, ?_, hb h⟩
      · rw [ht]; simp [h]
      · rw [ho, if_pos h, loadULong_storeULong]
    · rw [hs, if_neg h] at hfail
      exact absurd hfail h1
  by_cases hC : methodID = K.XF_CALCULATE
  · subst hC
    simp only [true_or, or_true, if_true]
    rw [CustomPython_at_CALCULATE] at hfail ⊢
    rcases hc : mod.DoCalcsAndReturnValues (startModule mod s.engine s.module) inargs s.outargs
      with ⟨r, out, m₁⟩
    obtain ⟨hs, -, -, ht, ho, -, hb⟩ :=
      caseCalculate_effect K B mod inargs { s with status := K.XF_FAILURE } r out m₁ hc
    by_cases h : r ≠ 0
    · refine ⟨startCalls s.engine ++ [Call.DoCalcsAndReturnValues], [Call.Py_Finalize], _, ?_,
        by simp, ?_, hb h⟩
      · rw [ht]; simp [h]
      · rw [ho, if_pos h, loadULong_storeULong]
    · rw [hs, if_neg h] at hfail
      exact absurd hfail h1
  by_cases hU : methodID = K.XF_CLEANUP
  · subst hU
    rw [CustomPython_at_CLEANUP, (caseCleanup_effect K mod _).1] at hfail
    exact absurd hfail h1
  · rw [CustomPython_at_other K B mod methodID inargs s hI hV hA hC hU]
    obtain ⟨-, -, -, ht, ho, hb⟩ := caseDefault_effect K B mod { s with status := K.XF_FAILURE }
    refine ⟨startCalls s.engine, [Call.Py_Finalize], _, ?_, by simp, ?_, hb⟩
    · rw [ht]; simp [hI, hV, hA, hC]
    · rw [ho, loadULong_storeULong]

/-- C2 as stated fails: on a 64-bit build whose `unsigned long int` has 32 bits,
with the buffer at `0x180403000`, a call with the unrecognized method 9999
returns `XF_FAILURE_WITH_MSG`, and slot 0 read as a pointer is `0x80403000`,
not the address of the buffer. -/
theorem failure_msg_slot_is_not_the_address :
    (CustomPython sampleConstants build64 moduleNegativeInputs 9999 (fun _ => 0)
        (entryState .Stopped)).status = sampleConstants.XF_FAILURE_WITH_MSG
      ∧ build64.sBufferAddr = 0x180403000
      ∧ (CustomPython sampleConstants build64 moduleNegativeInputs 9999 (fun _ => 0)
          (entryState .Stopped)).outargs 0 = 0x80403000
      ∧ loadPointer build64.ptrWidth
          ((CustomPython sampleConstants build64 moduleNegativeInputs 9999 (fun _ => 0)
            (entryState .Stopped)).outargs 0) ≠ build64.sBufferAddr := by
  decide

/-- C2, amended: whenever `CustomPython` returns with status
`XF_FAILURE_WITH_MSG`, the call has relayed a diagnostic (the last
`ReturnErrorMsg` of the call, made with the method's identifier, or with 5 for
an unrecognized method), the first `unsigned long` of output slot 0 holds the
address of the static buffer reduced to the width of `unsigned long int`, the
buffer read as a NUL-terminated string is the relayed text cut to 80
characters, and slot 0 read at pointer width is the address of the buffer
whenever `unsigned long int` is at least as wide as a pointer and the address
is one a pointer represents. -/
theorem CustomPython_failure_msg_roundtrip (K : XFConstants) (B : Build) (mod : Module M)
    (methodID : Int) (inargs : Args) (s : State M)
    (hfail : (CustomPython K B mod methodID inargs s).status = K.XF_FAILURE_WITH_MSG) :
    (∃ (pre post : List Call) (text : List Nat),
      (CustomPython K B mod methodID inargs s).trace
          = s.trace ++ pre
            ++ Call.ReturnErrorMsg
                (if methodID = K.XF_INITIALIZE ∨ methodID = K.XF_REP_VERSION
                    ∨ methodID = K.XF_REP_ARGUMENTS ∨ methodID = K.XF_CALCULATE
                  then methodID else 5) text
              :: post
        ∧ (∀ c t, Call.ReturnErrorMsg c t ∉ post)
        ∧ loadULong B.ulongWidth ((CustomPython K B mod methodID inargs s).outargs 0)
            = B.sBufferAddr % 2 ^ B.ulongWidth.bits
        ∧ cString (CustomPython K B mod methodID inargs s).sBuffer = (cString text).take 80)
      ∧ (B.ptrWidth.bits ≤ B.ulongWidth.bits → B.sBufferAddr < 2 ^ B.ptrWidth.bits →
          loadPointer B.ptrWidth ((CustomPython K B mod methodID inargs s).outargs 0)
            = B.sBufferAddr) := by
  have h := failure_msg_relayed K B mod methodID inargs s hfail
  refine ⟨h, fun hpw hv => ?_⟩
  obtain ⟨-, -, -, -, -, hl, -⟩ := h
  exact loadPointer_of_loadULong _ _ _ _ hl hpw hv

/-- Witness for the amended C2: a failing Initialize on a 32-bit build, started
with the engine down, with a diagnostic of 100 characters. -/
theorem CustomPython_failure_msg_roundtrip_witness :
    (CustomPython sampleConstants build32 (constModule 1 0 0 0 0 (List.replicate 100 69)) 0
        (fun _ => 0) (entryState .Stopped)).status = sampleConstants.XF_FAILURE_WITH_MSG
      ∧ (∃ (pre post : List Call) (text : List Nat),
          (CustomPython sampleConstants build32 (constModule 1 0 0 0 0 (List.replicate 100 69)) 0
              (fun _ => 0) (entryState .Stopped)).trace
            = (entryState .Stopped).trace ++ pre
              ++ Call.ReturnErrorMsg
                  (if (0 : Int) = sampleConstants.XF_INITIALIZE
                      ∨ (0 : Int) = sampleConstants.XF_REP_VERSION
                      ∨ (0 : Int) = sampleConstants.XF_REP_ARGUMENTS
                      ∨ (0 : Int) = sampleConstants.XF_CALCULATE
                    then 0 else 5) text
                :: post
          ∧ (∀ c t, Call.ReturnErrorMsg c t ∉ post)
          ∧ loadULong build32.ulongWidth
              ((CustomPython sampleConstants build32
                  (constModule 1 0 0 0 0 (List.replicate 100 69)) 0
                  (fun _ => 0) (entryState .Stopped)).outargs 0)
            = build32.sBufferAddr % 2 ^ build32.ulongWidth.bits
          ∧ cString (CustomPython sampleConstants build32
                (constModule 1 0 0 0 0 (List.replicate 100 69)) 0
                (fun _ => 0) (entryState .Stopped)).sBuffer
            = (cString text).take 80)
      ∧ loadPointer build32.ptrWidth
          ((CustomPython sampleConstants build32
              (constModule 1 0 0 0 0 (List.replicate 100 69)) 0
              (fun _ => 0) (entryState .Stopped)).outargs 0)
        = build32.sBufferAddr :=
  have h := CustomPython_failure_msg_roundtrip sampleConstants build32
    (constModule 1 0 0 0 0 (List.replicate 100 69)) 0 (fun _ => 0) (entryState .Stopped)
    (by decide)
  ⟨by decide, h.1, h.2 (by decide) (by decide)⟩

/-- C3: for every message without a NUL byte, of any length, and every prior
content of the 81-byte buffer, `CopyMsgToOutputs` leaves in the buffer the first
`min (length, 80)` bytes of the message followed only by zero bytes; the buffer
keeps its 81 bytes, byte 80 is 0, and the buffer read as a C string is the
message cut to 80 characters. -/
theorem CopyMsgToOutputs_buffer_content (B : Build) (sMsg : List Nat) (outargs : Args)
    (sBuffer : List Nat) (hmsg : ∀ c ∈ sMsg, c ≠ 0) (hlen : sBuffer.length = 81) :
    (CopyMsgToOutputs B sMsg outargs sBuffer).2
        = sMsg.take 80 ++ List.replicate (81 - min sMsg.length 80) 0
      ∧ (CopyMsgToOutputs B sMsg outargs sBuffer).2.length = 81
      ∧ (CopyMsgToOutputs B sMsg outargs sBuffer).2[80]? = some 0
      ∧ cString (CopyMsgToOutputs B sMsg outargs sBuffer).2 = sMsg.take 80 := by
  have hdrop : sBuffer.drop 81 = [] := List.drop_eq_nil_of_le (le_of_eq hlen)
  have hbuf : (CopyMsgToOutputs B sMsg outargs sBuffer).2
      = sMsg.take 80 ++ List.replicate (81 - min sMsg.length 80) 0 := by
    rw [CopyMsgToOutputs_sBuffer, strncpyBytes_eq, cString_of_no_nul hmsg, hdrop,
      List.append_assoc]
    congr 1
    have hk : 81 - min sMsg.length 80 = (80 - min sMsg.length 80) + 1 := by omega
    rw [hk, List.replicate_succ', List.length_take]
    congr 3
    omega
  have hstr := CopyMsgToOutputs_cString B sMsg outargs sBuffer
  rw [cString_of_no_nul hmsg] at hstr
  refine ⟨hbuf, ?_, ?_, hstr⟩
  · rw [hbuf]
    simp only [List.length_append, List.length_take, List.length_replicate]
    omega
  · rw [hbuf, List.getElem?_append_right (by simp)]
    rw [List.getElem?_replicate]
    simp only [List.length_take]
    rw [if_pos (by omega)]

/-- Witness for C3: a message of 100 characters over a buffer full of stale
bytes. -/
theorem CopyMsgToOutputs_buffer_content_witness :
    (∀ c ∈ List.replicate 100 65, c ≠ 0) ∧ (List.replicate 81 7).length = 81
      ∧ (CopyMsgToOutputs build32 (List.replicate 100 65) (fun _ => 0) (List.replicate 81 7)).2
          = (List.replicate 100 65).take 80
            ++ List.replicate (81 - min (List.replicate 100 65).length 80) 0
      ∧ (CopyMsgToOutputs build32 (List.replicate 100 65) (fun _ => 0)
          (List.replicate 81 7)).2.length = 81
      ∧ (CopyMsgToOutputs build32 (List.replicate 100 65) (fun _ => 0)
          (List.replicate 81 7)).2[80]? = some 0
      ∧ cString (CopyMsgToOutputs build32 (List.replicate 100 65) (fun _ => 0)
          (List.replicate 81 7)).2 = (List.replicate 100 65).take 80 :=
  ⟨by decide, by decide,
    CopyMsgToOutputs_buffer_content build32 (List.replicate 100 65) (fun _ => 0)
      (List.replicate 81 7) (by decide) (by decide)⟩

/-- C4, at the failing input: ReportArguments with `NumInputsExpected` returning
-1 and `NumOutputsToProvide` returning 2.  The first check sets
`XF_FAILURE_WITH_MSG` and relays, the `else` of the second check puts
`XF_SUCCESS` back, and the engine is finalized all the same; slot 0 holds the
number -1, not the relayed address. -/
theorem repArguments_negative_inputs_status :
    (CustomPython sampleConstants build32 moduleNegativeInputs
        sampleConstants.XF_REP_ARGUMENTS (fun _ => 0) (entryState .Stopped)).status
        = sampleConstants.XF_SUCCESS
      ∧ (CustomPython sampleConstants build32 moduleNegativeInputs
        sampleConstants.XF_REP_ARGUMENTS (fun _ => 0) (entryState .Stopped)).status
        ≠ sampleConstants.XF_FAILURE_WITH_MSG
      ∧ (CustomPython sampleConstants build32 moduleNegativeInputs
        sampleConstants.XF_REP_ARGUMENTS (fun _ => 0) (entryState .Stopped)).engine
        = EngineState.Stopped
      ∧ (CustomPython sampleConstants build32 moduleNegativeInputs
        sampleConstants.XF_REP_ARGUMENTS (fun _ => 0) (entryState .Stopped)).outargs 0
        = doubleOfInt (-1)
      ∧ (CustomPython sampleConstants build32 moduleNegativeInputs
        sampleConstants.XF_REP_ARGUMENTS (fun _ => 0) (entryState .Stopped)).trace
        = [Call.Py_Initialize, Call.initCustomPython, Call.NumInputsExpected,
            Call.ReturnErrorMsg 3 sampleText, Call.NumOutputsToProvide, Call.Py_Finalize] := by
  decide

/-- C5 as stated fails: with 3 expected inputs and -1 outputs on a 32-bit build
the status is `XF_FAILURE_WITH_MSG` and slot 1 holds -1, but slot 0 does not
hold the number 3: the relay made for the negative output count has put the
buffer address `0x10403000` over the low four bytes of the 3 written before. -/
theorem repArguments_failing_outputs_slot0 :
    (CustomPython sampleConstants build32 moduleNegativeOutputs
        sampleConstants.XF_REP_ARGUMENTS (fun _ => 0) (entryState .Stopped)).status
        = sampleConstants.XF_FAILURE_WITH_MSG
      ∧ (CustomPython sampleConstants build32 moduleNegativeOutputs
        sampleConstants.XF_REP_ARGUMENTS (fun _ => 0) (entryState .Stopped)).outargs 1
        = doubleOfInt (-1)
      ∧ doubleOfInt 3 = 0x4008000000000000
      ∧ (CustomPython sampleConstants build32 moduleNegativeOutputs
        sampleConstants.XF_REP_ARGUMENTS (fun _ => 0) (entryState .Stopped)).outargs 0
        = 0x4008000010403000
      ∧ ¬ ((CustomPython sampleConstants build32 moduleNegativeOutputs
            sampleConstants.XF_REP_ARGUMENTS (fun _ => 0) (entryState .Stopped)).outargs 0
            = doubleOfInt 3
          ∧ (CustomPython sampleConstants build32 moduleNegativeOutputs
            sampleConstants.XF_REP_ARGUMENTS (fun _ => 0) (entryState .Stopped)).outargs 1
            = doubleOfInt (-1)) := by
  decide

/-- C5, amended: for ReportArguments and every pair `(i, o)` the module reports,
slot 1 holds `o` as a number; when neither value is negative slot 0 holds `i` as
a number and the status is `XF_SUCCESS`; when `o` is negative the status is
`XF_FAILURE_WITH_MSG` and slot 0 is the number `i` with its first
`unsigned long` overwritten by the address of the error buffer. -/
theorem repArguments_outputs (K : XFConstants) (B : Build) (mod : Module M) (inargs : Args)
    (s : State M) (i o : Int) (m₁ m₂ : M)
    (hi : mod.NumInputsExpected (startModule mod s.engine s.module) = (i, m₁))
    (ho : mod.NumOutputsToProvide m₁ = (o, m₂)) :
    (CustomPython K B mod K.XF_REP_ARGUMENTS inargs s).outargs 1 = doubleOfInt o
      ∧ (0 ≤ i → 0 ≤ o →
          (CustomPython K B mod K.XF_REP_ARGUMENTS inargs s).outargs 0 = doubleOfInt i
            ∧ (CustomPython K B mod K.XF_REP_ARGUMENTS inargs s).status = K.XF_SUCCESS)
      ∧ (o < 0 →
          (CustomPython K B mod K.XF_REP_ARGUMENTS inargs s).status = K.XF_FAILURE_WITH_MSG
            ∧ (CustomPython K B mod K.XF_REP_ARGUMENTS inargs s).outargs 0
                = storeULong B.ulongWidth (doubleOfInt i) B.sBufferAddr
            ∧ loadULong B.ulongWidth
                  ((CustomPython K B mod K.XF_REP_ARGUMENTS inargs s).outargs 0)
                = B.sBufferAddr % 2 ^ B.ulongWidth.bits) := by
  rw [CustomPython_at_REP_ARGUMENTS]
  obtain ⟨hs, -, -, h0, h1, -, -⟩ :=
    caseRepArguments_effect K B mod { s with status := K.XF_FAILURE } i o m₁ m₂ hi ho
  refine ⟨h1, ?_, ?_⟩
  · intro _ hno
    rw [h0, hs, if_neg (not_lt.mpr hno), if_neg (not_lt.mpr hno)]
    exact ⟨rfl, rfl⟩
  · intro hneg
    rw [h0, hs, if_pos hneg, if_pos hneg, loadULong_storeULong]
    exact ⟨rfl, rfl, rfl⟩

/-- Witness for the amended C5: 3 expected inputs with 2 outputs, and 3
expected inputs with -1 outputs. -/
theorem repArguments_outputs_witness :
    ((CustomPython sampleConstants build32 (constModule 0 0 3 2 0 sampleText)
          sampleConstants.XF_REP_ARGUMENTS (fun _ => 0) (entryState .Running)).outargs 0
          = doubleOfInt 3
        ∧ (CustomPython sampleConstants build32 (constModule 0 0 3 2 0 sampleText)
          sampleConstants.XF_REP_ARGUMENTS (fun _ => 0) (entryState .Running)).status
          = sampleConstants.XF_SUCCESS)
      ∧ (CustomPython sampleConstants build32 moduleNegativeOutputs
        sampleConstants.XF_REP_ARGUMENTS (fun _ => 0) (entryState .Running)).outargs 1
        = doubleOfInt (-1)
      ∧ (CustomPython sampleConstants build32 moduleNegativeOutputs
        sampleConstants.XF_REP_ARGUMENTS (fun _ => 0) (entryState .Running)).status
        = sampleConstants.XF_FAILURE_WITH_MSG
      ∧ (CustomPython sampleConstants build32 moduleNegativeOutputs
        sampleConstants.XF_REP_ARGUMENTS (fun _ => 0) (entryState .Running)).outargs 0
        = storeULong build32.ulongWidth (doubleOfInt 3) build32.sBufferAddr
      ∧ loadULong build32.ulongWidth
          ((CustomPython sampleConstants build32 moduleNegativeOutputs
            sampleConstants.XF_REP_ARGUMENTS (fun _ => 0) (entryState .Running)).outargs 0)
        = build32.sBufferAddr % 2 ^ build32.ulongWidth.bits :=
  have g := repArguments_outputs sampleConstants build32 (constModule 0 0 3 2 0 sampleText)
    (fun _ => 0) (entryState .Running) 3 2 () () rfl rfl
  have h := repArguments_outputs sampleConstants build32 moduleNegativeOutputs (fun _ => 0)
    (entryState .Running) 3 (-1) () () rfl rfl
  ⟨g.2.1 (by decide) (by decide), h.1, (h.2.2 (by decide)).1, (h.2.2 (by decide)).2.1,
    (h.2.2 (by decide)).2.2⟩

/-- C6: for every methodID, entry state and module, a call of `CustomPython` that
does not end with status `XF_SUCCESS` leaves the engine Stopped. -/
theorem CustomPython_failure_stops_engine (K : XFConstants) (B : Build) (mod : Module M)
    (methodID : Int) (inargs : Args) (s : State M)
    (hfail : (CustomPython K B mod methodID inargs s).status ≠ K.XF_SUCCESS) :
    (CustomPython K B mod methodID inargs s).engine = EngineState.Stopped := by
  by_cases hI : methodID = K.XF_INITIALIZE
  · subst hI
    rw [CustomPython_at_INITIALIZE] at hfail ⊢
    rcases hr : mod.InitRoutines (startModule mod s.engine s.module) with ⟨r, m₁⟩
    obtain ⟨hs, he, -⟩ :=
      caseInitialize_effect K B mod { s with status := K.XF_FAILURE } r m₁ hr
    by_cases h : r = 1
    · rw [he, if_pos h]
    · rw [hs, if_neg h] at hfail
      exact absurd rfl hfail
  by_cases hV : methodID = K.XF_REP_VERSION
  · subst hV
    rw [CustomPython_at_REP_VERSION] at hfail ⊢
    rcases hv : mod.ReturnCustomModuleVersion (startModule mod s.engine s.module) with ⟨v, m₁⟩
    rcases hv₂ : mod.ReturnCustomModuleVersion m₁ with ⟨v₂, m₂⟩
    obtain ⟨hs, he, -⟩ :=
      caseRepVersion_effect K B mod { s with status := K.XF_FAILURE } v v₂ m₁ m₂ hv hv₂
    cases h : doubleGtZero v
    · rw [he]; simp [h]
    · rw [hs] at hfail
      simp [h] at hfail
  by_cases hA : methodID = K.XF_REP_ARGUMENTS
  · subst hA
    rw [CustomPython_at_REP_ARGUMENTS] at hfail ⊢
    rcases hi : mod.NumInputsExpected (startModule mod s.engine s.module) with ⟨i, m₁⟩
    rcases hq : mod.NumOutputsToProvide m₁ with ⟨o, m₂⟩
    obtain ⟨hs, he, -⟩ :=
      caseRepArguments_effect K B mod { s with status := K.XF_FAILURE } i o m₁ m₂ hi hq
    by_cases h : o < 0
    · rw [he, if_pos (Or.inr h)]
    · rw [hs, if_neg h] at hfail
      exact absurd rfl hfail
  by_cases hC : methodID = K.XF_CALCULATE
  · subst hC
    rw [CustomPython_at_CALCULATE] at hfail ⊢
    rcases hc : mod.DoCalcsAndReturnValues (startModule mod s.engine s.module) inargs s.outargs
      with ⟨r, out, m₁⟩
    obtain ⟨hs, he, -⟩ :=
      caseCalculate_effect K B mod inargs { s with status := K.XF_FAILURE } r out m₁ hc
    by_cases h : r ≠ 0
    · rw [he, if_pos h]
    · rw [hs, if_neg h] at hfail
      exact absurd rfl hfail
  by_cases hU : methodID = K.XF_CLEANUP
  · subst hU
    rw [CustomPython_at_CLEANUP]
    exact (caseCleanup_effect K mod _).2.1
  · rw [CustomPython_at_other K B mod methodID inargs s hI hV hA hC hU]
    exact (caseDefault_effect K B mod _).2.1

/-- Witness for C6: a Calculate whose module reports outcome 4, entered with the
engine down, so that the engine started by the call is stopped by it. -/
theorem CustomPython_failure_stops_engine_witness :
    (CustomPython sampleConstants build32 (constModule 0 0 0 0 4 sampleText)
        sampleConstants.XF_CALCULATE (fun _ => 0) (entryState .Stopped)).status
        ≠ sampleConstants.XF_SUCCESS
      ∧ (CustomPython sampleConstants build32 (constModule 0 0 0 0 4 sampleText)
        sampleConstants.XF_CALCULATE (fun _ => 0) (entryState .Stopped)).engine
        = EngineState.Stopped :=
  ⟨by decide,
    CustomPython_failure_stops_engine sampleConstants build32
      (constModule 0 0 0 0 4 sampleText) sampleConstants.XF_CALCULATE (fun _ => 0)
      (entryState .Stopped) (by decide)⟩

/-- C7, at the failing input: ReportArguments, which is not the Cleanup method,
entered with the engine Running, with `NumInputsExpected` returning -1 and
`NumOutputsToProvide` returning 2, ends with status `XF_SUCCESS` and with the
engine Stopped. -/
theorem repArguments_success_with_engine_stopped :
    sampleConstants.XF_REP_ARGUMENTS ≠ sampleConstants.XF_CLEANUP
      ∧ (entryState .Running).engine = EngineState.Running
      ∧ (CustomPython sampleConstants build32 moduleNegativeInputs
          sampleConstants.XF_REP_ARGUMENTS (fun _ => 0) (entryState .Running)).status
        = sampleConstants.XF_SUCCESS
      ∧ (CustomPython sampleConstants build32 moduleNegativeInputs
          sampleConstants.XF_REP_ARGUMENTS (fun _ => 0) (entryState .Running)).engine
        = EngineState.Stopped := by
  decide

/-- C8: for every methodID outside the five recognized identifiers and every
entry state, the status is `XF_FAILURE_WITH_MSG`, the calls made are the engine
start (only when the engine was Stopped), one `ReturnErrorMsg` with code 5 and
`Py_Finalize`, nothing else, and the engine is left Stopped. -/
theorem CustomPython_unknown_method (K : XFConstants) (B : Build) (mod : Module M)
    (methodID : Int) (inargs : Args) (s : State M)
    (hunk : methodID ∉ [K.XF_INITIALIZE, K.XF_REP_VERSION, K.XF_REP_ARGUMENTS,
      K.XF_CALCULATE, K.XF_CLEANUP]) :
    (CustomPython K B mod methodID inargs s).status = K.XF_FAILURE_WITH_MSG
      ∧ (CustomPython K B mod methodID inargs s).trace
        = s.trace ++ startCalls s.engine
          ++ [Call.ReturnErrorMsg 5 (mod.ReturnErrorMsgText (startModule mod s.engine s.module) 5),
            Call.Py_Finalize]
      ∧ (CustomPython K B mod methodID inargs s).engine = EngineState.Stopped := by
  simp only [List.mem_cons, List.mem_singleton, List.not_mem_nil, or_false, not_or] at hunk
  obtain ⟨hI, hV, hA, hC, hU⟩ := hunk
  rw [CustomPython_at_other K B mod methodID inargs s hI hV hA hC hU]
  obtain ⟨hs, he, -, ht, -⟩ := caseDefault_effect K B mod { s with status := K.XF_FAILURE }
  exact ⟨hs, ht, he⟩

/-- Witness for C8: method 9999, entered with the engine Running. -/
theorem CustomPython_unknown_method_witness :
    (9999 : Int) ∉ [sampleConstants.XF_INITIALIZE, sampleConstants.XF_REP_VERSION,
        sampleConstants.XF_REP_ARGUMENTS, sampleConstants.XF_CALCULATE,
        sampleConstants.XF_CLEANUP]
      ∧ (CustomPython sampleConstants build32 moduleNegativeInputs 9999 (fun _ => 0)
          (entryState .Running)).status = sampleConstants.XF_FAILURE_WITH_MSG
      ∧ (CustomPython sampleConstants build32 moduleNegativeInputs 9999 (fun _ => 0)
          (entryState .Running)).trace
        = (entryState .Running).trace ++ startCalls (entryState .Running).engine
          ++ [Call.ReturnErrorMsg 5
                (moduleNegativeInputs.ReturnErrorMsgText
                  (startModule moduleNegativeInputs (entryState .Running).engine
                    (entryState .Running).module) 5),
            Call.Py_Finalize]
      ∧ (CustomPython sampleConstants build32 moduleNegativeInputs 9999 (fun _ => 0)
          (entryState .Running)).engine = EngineState.Stopped :=
  ⟨by decide,
    CustomPython_unknown_method sampleConstants build32 moduleNegativeInputs 9999 (fun _ => 0)
      (entryState .Running) (by decide)⟩

/-- C9: for the Cleanup method, every entry state and every module, the status
is `XF_SUCCESS`, the calls made are the engine start (only when the engine was
Stopped), one `WrapUpSimulation` and `Py_Finalize`, and the engine is left
Stopped. -/
theorem CustomPython_cleanup_effect (K : XFConstants) (B : Build) (mod : Module M)
    (inargs : Args) (s : State M) :
    (CustomPython K B mod K.XF_CLEANUP inargs s).status = K.XF_SUCCESS
      ∧ (CustomPython K B mod K.XF_CLEANUP inargs s).trace
        = s.trace ++ startCalls s.engine ++ [Call.WrapUpSimulation, Call.Py_Finalize]
      ∧ ((CustomPython K B mod K.XF_CLEANUP inargs s).trace.drop s.trace.length).count
          Call.WrapUpSimulation = 1
      ∧ (CustomPython K B mod K.XF_CLEANUP inargs s).engine = EngineState.Stopped := by
  rw [CustomPython_at_CLEANUP]
  obtain ⟨hs, he, -, ht, -⟩ := caseCleanup_effect K mod { s with status := K.XF_FAILURE }
  refine ⟨hs, ht, ?_, he⟩
  have hd : (caseCleanup K mod { s with status := K.XF_FAILURE }).trace.drop s.trace.length
      = startCalls s.engine ++ [Call.WrapUpSimulation, Call.Py_Finalize] := by
    rw [ht]
    show List.drop s.trace.length
      (s.trace ++ startCalls s.engine ++ [Call.WrapUpSimulation, Call.Py_Finalize]) = _
    rw [List.append_assoc, List.drop_left]
  rw [hd]
  cases s.engine <;> decide

/-- C10: after the call sequence Initialize, Calculate, Cleanup, from any entry
state and with any module (in particular one for which Initialize and Calculate
succeed), the engine is Stopped; an Initialize that follows starts the engine
again (`Py_Initialize`, then `initCustomPython`) and calls `InitRoutines` again,
on the module state that this new `initCustomPython` produced. -/
theorem sequence_then_Initialize_starts_anew (K : XFConstants) (B : Build) (mod : Module M)
    (in₁ in₂ in₃ in₄ : Args) (st₂ st₃ st₄ : Int) (out₂ out₃ out₄ : Args) (s : State M) :
    (initCalcCleanup K B mod in₁ in₂ in₃ st₂ st₃ out₂ out₃ s).engine = EngineState.Stopped
      ∧ (CustomPython K B mod K.XF_INITIALIZE in₄
            (nextCall (initCalcCleanup K B mod in₁ in₂ in₃ st₂ st₃ out₂ out₃ s) st₄ out₄)).trace
        = (initCalcCleanup K B mod in₁ in₂ in₃ st₂ st₃ out₂ out₃ s).trace
          ++ [Call.Py_Initialize, Call.initCustomPython, Call.InitRoutines]
          ++ (if (mod.InitRoutines (mod.initCustomPython
                  (initCalcCleanup K B mod in₁ in₂ in₃ st₂ st₃ out₂ out₃ s).module)).1 = 1
              then
                [Call.ReturnErrorMsg K.XF_INITIALIZE
                    (mod.ReturnErrorMsgText
                      (mod.InitRoutines (mod.initCustomPython
                        (initCalcCleanup K B mod in₁ in₂ in₃ st₂ st₃ out₂ out₃ s).module)).2
                      K.XF_INITIALIZE),
                  Call.Py_Finalize]
              else [])
      ∧ (CustomPython K B mod K.XF_INITIALIZE in₄
            (nextCall (initCalcCleanup K B mod in₁ in₂ in₃ st₂ st₃ out₂ out₃ s) st₄ out₄)).module
        = (mod.InitRoutines (mod.initCustomPython
            (initCalcCleanup K B mod in₁ in₂ in₃ st₂ st₃ out₂ out₃ s).module)).2 := by
  have hstop : (initCalcCleanup K B mod in₁ in₂ in₃ st₂ st₃ out₂ out₃ s).engine
      = EngineState.Stopped := by
    simp only [initCalcCleanup]
    rw [CustomPython_at_CLEANUP]
    exact (caseCleanup_effect K mod _).2.1
  refine ⟨hstop, ?_⟩
  generalize initCalcCleanup K B mod in₁ in₂ in₃ st₂ st₃ out₂ out₃ s = s₃ at hstop ⊢
  rw [CustomPython_at_INITIALIZE]
  have hr : mod.InitRoutines (startModule mod s₃.engine s₃.module)
      = ((mod.InitRoutines (mod.initCustomPython s₃.module)).1,
          (mod.InitRoutines (mod.initCustomPython s₃.module)).2) := by
    rw [hstop]; rfl
  obtain ⟨-, -, hm, ht, -⟩ :=
    caseInitialize_effect K B mod { nextCall s₃ st₄ out₄ with status := K.XF_FAILURE } _ _ hr
  refine ⟨?_, hm⟩
  rw [ht]
  simp [nextCall, hstop, startCalls]

/-- C11: the start pattern applied twice leaves the same state as applied once,
trace included, so its second application starts nothing; the stop pattern
applied twice leaves the same state as applied once, trace included, so its
second application finalizes nothing. -/
theorem lifecycle_steps_idempotent (mod : Module M) (s : State M) :
    ensure_running mod (ensure_running mod s) = ensure_running mod s
      ∧ (ensure_running mod (ensure_running mod s)).trace = (ensure_running mod s).trace
      ∧ stop (stop s) = stop s
      ∧ (stop (stop s)).trace = (stop s).trace := by
  have h1 : ensure_running mod (ensure_running mod s) = ensure_running mod s := by
    have he := ensure_running_engine mod s
    generalize ensure_running mod s = t at he
    simp [ensure_running, Py_IsInitialized, he]
  have h2 : stop (stop s) = stop s := by
    have he := stop_engine s
    generalize stop s = t at he
    simp [stop, Py_IsInitialized, he]
  exact ⟨h1, by rw [h1], h2, by rw [h2]⟩

/-- C12 as stated fails: on a 64-bit build whose `unsigned long int` has 32 bits,
with the buffer at `0x180403000`, after a relay of 90 characters into an output
array whose slot 0 held the number 3 and a relay of one character into an array
whose slot 0 held 0, the two slots read as pointers are `0x4008000080403000` and
`0x80403000`: they differ, and neither is the address of the buffer. -/
theorem relays_leave_no_common_address :
    build64.sBufferAddr = 0x180403000
      ∧ loadPointer build64.ptrWidth
          ((CopyMsgToOutputs build64 (List.replicate 90 65) (fun _ => doubleOfInt 3)
            (List.replicate 81 0)).1 0) = 0x4008000080403000
      ∧ loadPointer build64.ptrWidth
          ((CopyMsgToOutputs build64 [66] (fun _ => 0)
            (CopyMsgToOutputs build64 (List.replicate 90 65) (fun _ => doubleOfInt 3)
              (List.replicate 81 0)).2).1 0) = 0x80403000
      ∧ loadPointer build64.ptrWidth
          ((CopyMsgToOutputs build64 [66] (fun _ => 0)
            (CopyMsgToOutputs build64 (List.replicate 90 65) (fun _ => doubleOfInt 3)
              (List.replicate 81 0)).2).1 0) ≠ build64.sBufferAddr := by
  decide

/-- C12, amended: relaying `m1` and then `m2` leaves the static buffer exactly as
relaying `m2` alone does, whatever the buffer held before; read as a C string it
is `m2` cut to 80 characters; the first `unsigned long` of slot 0 holds the same
value, the buffer address reduced to the width of `unsigned long int`, after
either call; and slot 0 read at pointer width is the address of the buffer after
either call whenever `unsigned long int` is at least as wide as a pointer and
the address is one a pointer represents. -/
theorem CopyMsgToOutputs_overwrites (B : Build) (m1 m2 : List Nat) (out₁ out₂ : Args)
    (sBuffer : List Nat) :
    (CopyMsgToOutputs B m2 out₂ (CopyMsgToOutputs B m1 out₁ sBuffer).2).2
        = (CopyMsgToOutputs B m2 out₂ sBuffer).2
      ∧ cString (CopyMsgToOutputs B m2 out₂ (CopyMsgToOutputs B m1 out₁ sBuffer).2).2
        = (cString m2).take 80
      ∧ loadULong B.ulongWidth ((CopyMsgToOutputs B m1 out₁ sBuffer).1 0)
        = B.sBufferAddr % 2 ^ B.ulongWidth.bits
      ∧ loadULong B.ulongWidth
          ((CopyMsgToOutputs B m2 out₂ (CopyMsgToOutputs B m1 out₁ sBuffer).2).1 0)
        = B.sBufferAddr % 2 ^ B.ulongWidth.bits
      ∧ (B.ptrWidth.bits ≤ B.ulongWidth.bits → B.sBufferAddr < 2 ^ B.ptrWidth.bits →
          loadPointer B.ptrWidth ((CopyMsgToOutputs B m1 out₁ sBuffer).1 0) = B.sBufferAddr
            ∧ loadPointer B.ptrWidth
                ((CopyMsgToOutputs B m2 out₂ (CopyMsgToOutputs B m1 out₁ sBuffer).2).1 0)
              = B.sBufferAddr) := by
  refine ⟨?_, CopyMsgToOutputs_cString _ _ _ _, ?_, ?_, fun hpw hv => ⟨?_, ?_⟩⟩
  · rw [CopyMsgToOutputs_sBuffer, CopyMsgToOutputs_sBuffer, CopyMsgToOutputs_sBuffer]
    have hd : (strncpyBytes m1 80 ++ 0 :: List.drop 81 sBuffer).drop 81
        = List.drop 81 sBuffer := by
      have hl : (strncpyBytes m1 80 ++ [0]).length = 81 := by
        simp [strncpyBytes_length]
      have : strncpyBytes m1 80 ++ 0 :: List.drop 81 sBuffer
          = (strncpyBytes m1 80 ++ [0]) ++ List.drop 81 sBuffer := by simp
      rw [this, ← hl, List.drop_left]
    rw [hd]
  · rw [CopyMsgToOutputs_slot0, loadULong_storeULong]
  · rw [CopyMsgToOutputs_slot0, loadULong_storeULong]
  · rw [CopyMsgToOutputs_slot0]
    exact loadPointer_storeULong _ _ _ _ hpw hv
  · rw [CopyMsgToOutputs_slot0]
    exact loadPointer_storeULong _ _ _ _ hpw hv

/-- Witness for the amended C12: on the 32-bit build, a relay of 90 characters
into an array whose slot 0 held the number 3, then a relay of one character into
an array whose slot 0 held 0. -/
theorem CopyMsgToOutputs_overwrites_witness :
    cString (CopyMsgToOutputs build32 [66] (fun _ => 0)
        (CopyMsgToOutputs build32 (List.replicate 90 65) (fun _ => doubleOfInt 3)
          (List.replicate 81 7)).2).2 = [66]
      ∧ loadPointer build32.ptrWidth
          ((CopyMsgToOutputs build32 (List.replicate 90 65) (fun _ => doubleOfInt 3)
            (List.replicate 81 7)).1 0) = build32.sBufferAddr
      ∧ loadPointer build32.ptrWidth
          ((CopyMsgToOutputs build32 [66] (fun _ => 0)
            (CopyMsgToOutputs build32 (List.replicate 90 65) (fun _ => doubleOfInt 3)
              (List.replicate 81 7)).2).1 0) = build32.sBufferAddr :=
  have h := CopyMsgToOutputs_overwrites build32 (List.replicate 90 65) [66]
    (fun _ => doubleOfInt 3) (fun _ => 0) (List.replicate 81 7)
  ⟨h.2.1, h.2.2.2.2 (by decide) (by decide)⟩

/-- C13: for the Initialize method and every entry state, with `r` the value
`InitRoutines` returns: if `r` is the failure value 1, the status is
`XF_FAILURE_WITH_MSG`, the calls made end with `ReturnErrorMsg (XF_INITIALIZE)`
and `Py_Finalize`, the engine is Stopped, and an Initialize that follows starts
the engine again before it calls `InitRoutines`; otherwise the status is
`XF_SUCCESS` and the engine is Running. -/
theorem XF_INITIALIZE_outcome (K : XFConstants) (B : Build) (mod : Module M)
    (inargs in₂ : Args) (st₂ : Int) (out₂ : Args) (s : State M) (r : Int) (m₁ : M)
    (hr : mod.InitRoutines (startModule mod s.engine s.module) = (r, m₁)) :
    (r = 1 →
        (CustomPython K B mod K.XF_INITIALIZE inargs s).status = K.XF_FAILURE_WITH_MSG
          ∧ (CustomPython K B mod K.XF_INITIALIZE inargs s).trace
            = s.trace ++ startCalls s.engine
              ++ [Call.InitRoutines,
                Call.ReturnErrorMsg K.XF_INITIALIZE (mod.ReturnErrorMsgText m₁ K.XF_INITIALIZE),
                Call.Py_Finalize]
          ∧ (CustomPython K B mod K.XF_INITIALIZE inargs s).engine = EngineState.Stopped
          ∧ ∃ rest,
              (CustomPython K B mod K.XF_INITIALIZE in₂
                  (nextCall (CustomPython K B mod K.XF_INITIALIZE inargs s) st₂ out₂)).trace
                = (CustomPython K B mod K.XF_INITIALIZE inargs s).trace
                  ++ Call.Py_Initialize :: Call.initCustomPython :: Call.InitRoutines :: rest)
      ∧ (r ≠ 1 →
          (CustomPython K B mod K.XF_INITIALIZE inargs s).status = K.XF_SUCCESS
            ∧ (CustomPython K B mod K.XF_INITIALIZE inargs s).engine = EngineState.Running) := by
  have hstep := CustomPython_at_INITIALIZE K B mod inargs s
  obtain ⟨hs, he, -, ht, -⟩ :=
    caseInitialize_effect K B mod { s with status := K.XF_FAILURE } r m₁ hr
  rw [← hstep] at hs he ht
  constructor
  · intro h
    have hstopped : (CustomPython K B mod K.XF_INITIALIZE inargs s).engine
        = EngineState.Stopped := by rw [he, if_pos h]
    refine ⟨by rw [hs, if_pos h], ?_, hstopped, ?_⟩
    · rw [ht, if_pos h]
      simp
    · exact XF_INITIALIZE_trace_of_stopped K B mod in₂ _ hstopped
  · intro h
    exact ⟨by rw [hs, if_neg h], by rw [he, if_neg h]⟩

/-- Witness for C13: `InitRoutines` returning 1 from a Stopped engine, and
`InitRoutines` returning 0. -/
theorem XF_INITIALIZE_outcome_witness :
    ((CustomPython sampleConstants build32 (constModule 1 0 0 0 0 sampleText)
          sampleConstants.XF_INITIALIZE (fun _ => 0) (entryState .Stopped)).status
          = sampleConstants.XF_FAILURE_WITH_MSG
        ∧ (CustomPython sampleConstants build32 (constModule 1 0 0 0 0 sampleText)
          sampleConstants.XF_INITIALIZE (fun _ => 0) (entryState .Stopped)).engine
          = EngineState.Stopped)
      ∧ (CustomPython sampleConstants build32 (constModule 0 0 0 0 0 sampleText)
          sampleConstants.XF_INITIALIZE (fun _ => 0) (entryState .Stopped)).status
          = sampleConstants.XF_SUCCESS
      ∧ (CustomPython sampleConstants build32 (constModule 0 0 0 0 0 sampleText)
          sampleConstants.XF_INITIALIZE (fun _ => 0) (entryState .Stopped)).engine
          = EngineState.Running :=
  have f := (XF_INITIALIZE_outcome sampleConstants build32 (constModule 1 0 0 0 0 sampleText)
    (fun _ => 0) (fun _ => 0) 7 (fun _ => 0) (entryState .Stopped) 1 () rfl).1 rfl
  have g := (XF_INITIALIZE_outcome sampleConstants build32 (constModule 0 0 0 0 0 sampleText)
    (fun _ => 0) (fun _ => 0) 7 (fun _ => 0) (entryState .Stopped) 0 () rfl).2 (by decide)
  ⟨⟨f.1, f.2.2.1⟩, g.1, g.2⟩

/-- C14 as stated fails: a module whose first `ReturnCustomModuleVersion` reports
1.0 and whose second reports 2.0.  The value tested is 1.0, which is positive,
the status is `XF_SUCCESS` and the engine is Running, but slot 0 holds 2.0, the
value of the second invocation made on line 131. -/
theorem repVersion_output_is_second_value :
    ((versionModule (doubleOfInt 1) (doubleOfInt 2)).ReturnCustomModuleVersion
        (startModule (versionModule (doubleOfInt 1) (doubleOfInt 2)) EngineState.Stopped 0)).1
        = 0x3FF0000000000000
      ∧ doubleGtZero 0x3FF0000000000000 = true
      ∧ (CustomPython sampleConstants build32 (versionModule (doubleOfInt 1) (doubleOfInt 2))
          sampleConstants.XF_REP_VERSION (fun _ => 0) (versionEntryState .Stopped)).status
        = sampleConstants.XF_SUCCESS
      ∧ (CustomPython sampleConstants build32 (versionModule (doubleOfInt 1) (doubleOfInt 2))
          sampleConstants.XF_REP_VERSION (fun _ => 0) (versionEntryState .Stopped)).outargs 0
        = 0x4000000000000000
      ∧ (CustomPython sampleConstants build32 (versionModule (doubleOfInt 1) (doubleOfInt 2))
          sampleConstants.XF_REP_VERSION (fun _ => 0) (versionEntryState .Stopped)).outargs 0
        ≠ 0x3FF0000000000000 := by
  decide

/-- C14, amended: for the ReportVersion method and every entry state, with `v`
the value of the first `ReturnCustomModuleVersion` and `v₂` the value a second
invocation yields: if `v > 0` the status is `XF_SUCCESS`, the engine is Running
and slot 0 holds `v₂`, hence `v` whenever the module reports the same value
again; if `v <= 0` (0 included) the status is `XF_FAILURE_WITH_MSG`, the calls
made end with `ReturnErrorMsg (XF_REP_VERSION)` and `Py_Finalize`, the only
write to the outputs is the relay's store into slot 0, and the engine is
Stopped. -/
theorem XF_REP_VERSION_outcome (K : XFConstants) (B : Build) (mod : Module M)
    (inargs : Args) (s : State M) (v v₂ : Nat) (m₁ m₂ : M)
    (hv : mod.ReturnCustomModuleVersion (startModule mod s.engine s.module) = (v, m₁))
    (hv₂ : mod.ReturnCustomModuleVersion m₁ = (v₂, m₂)) :
    (doubleGtZero v = true →
        (CustomPython K B mod K.XF_REP_VERSION inargs s).status = K.XF_SUCCESS
          ∧ (CustomPython K B mod K.XF_REP_VERSION inargs s).outargs 0 = v₂
          ∧ (v₂ = v → (CustomPython K B mod K.XF_REP_VERSION inargs s).outargs 0 = v)
          ∧ (CustomPython K B mod K.XF_REP_VERSION inargs s).engine = EngineState.Running)
      ∧ (doubleLeZero v = true →
          (CustomPython K B mod K.XF_REP_VERSION inargs s).status = K.XF_FAILURE_WITH_MSG
            ∧ (CustomPython K B mod K.XF_REP_VERSION inargs s).trace
              = s.trace ++ startCalls s.engine
                ++ [Call.ReturnCustomModuleVersion,
                  Call.ReturnErrorMsg K.XF_REP_VERSION
                    (mod.ReturnErrorMsgText m₁ K.XF_REP_VERSION),
                  Call.Py_Finalize]
            ∧ (CustomPython K B mod K.XF_REP_VERSION inargs s).outargs 0
              = storeULong B.ulongWidth (s.outargs 0) B.sBufferAddr
            ∧ (∀ k, (CustomPython K B mod K.XF_REP_VERSION inargs s).outargs (k + 1)
                = s.outargs (k + 1))
            ∧ (CustomPython K B mod K.XF_REP_VERSION inargs s).engine
              = EngineState.Stopped) := by
  have hstep := CustomPython_at_REP_VERSION K B mod inargs s
  obtain ⟨hs, he, -, ht, ho, -⟩ :=
    caseRepVersion_effect K B mod { s with status := K.XF_FAILURE } v v₂ m₁ m₂ hv hv₂
  have hk := caseRepVersion_slot_succ_of_not_gt K B mod { s with status := K.XF_FAILURE } v m₁ hv
  rw [← hstep] at hs he ht ho hk
  constructor
  · intro h
    rw [hs, he, ho]
    simp [h]
  · intro h
    have hneg := doubleGtZero_of_leZero h
    refine ⟨?_, ?_, ?_, hk hneg, ?_⟩
    · rw [hs]; simp [hneg]
    · rw [ht]; simp [hneg]
    · rw [ho]; simp [hneg]
    · rw [he]; simp [hneg]

/-- Witness for the amended C14: a module that reports 2.0 twice, and a module
that reports 0.0. -/
theorem XF_REP_VERSION_outcome_witness :
    ((CustomPython sampleConstants build32 (constModule 0 (doubleOfInt 2) 0 0 0 sampleText)
          sampleConstants.XF_REP_VERSION (fun _ => 0) (entryState .Stopped)).status
          = sampleConstants.XF_SUCCESS
        ∧ (CustomPython sampleConstants build32 (constModule 0 (doubleOfInt 2) 0 0 0 sampleText)
          sampleConstants.XF_REP_VERSION (fun _ => 0) (entryState .Stopped)).outargs 0
          = doubleOfInt 2)
      ∧ (CustomPython sampleConstants build32 (constModule 0 0 0 0 0 sampleText)
          sampleConstants.XF_REP_VERSION (fun _ => 0) (entryState .Stopped)).status
          = sampleConstants.XF_FAILURE_WITH_MSG
      ∧ (CustomPython sampleConstants build32 (constModule 0 0 0 0 0 sampleText)
          sampleConstants.XF_REP_VERSION (fun _ => 0) (entryState .Stopped)).engine
          = EngineState.Stopped :=
  have f := (XF_REP_VERSION_outcome sampleConstants build32
    (constModule 0 (doubleOfInt 2) 0 0 0 sampleText) (fun _ => 0) (entryState .Stopped)
    (doubleOfInt 2) (doubleOfInt 2) () () rfl rfl).1 (by decide)
  have g := (XF_REP_VERSION_outcome sampleConstants build32
    (constModule 0 0 0 0 0 sampleText) (fun _ => 0) (entryState .Stopped)
    0 0 () () rfl rfl).2 (by decide)
  ⟨⟨f.1, f.2.2.1 rfl⟩, g.1, g.2.2.2.2⟩

/-- C15: for the Calculate method, every entry state and every input array, with
`r` the outcome of `DoCalcsAndReturnValues` and `out` the outputs it hands back:
if `r = 0` the status is `XF_SUCCESS`, the engine is Running, the only call
after the engine start is the module's, and the outputs are exactly `out`; if
`r ≠ 0` the status is `XF_FAILURE_WITH_MSG`, the calls made end with
`ReturnErrorMsg (XF_CALCULATE)` and `Py_Finalize`, and the engine is Stopped. -/
theorem XF_CALCULATE_outcome (K : XFConstants) (B : Build) (mod : Module M)
    (inargs : Args) (s : State M) (r : Int) (out : Args) (m₁ : M)
    (hc : mod.DoCalcsAndReturnValues (startModule mod s.engine s.module) inargs s.outargs
      = (r, out, m₁)) :
    (r = 0 →
        (CustomPython K B mod K.XF_CALCULATE inargs s).status = K.XF_SUCCESS
          ∧ (CustomPython K B mod K.XF_CALCULATE inargs s).engine = EngineState.Running
          ∧ (CustomPython K B mod K.XF_CALCULATE inargs s).trace
            = s.trace ++ startCalls s.engine ++ [Call.DoCalcsAndReturnValues]
          ∧ (CustomPython K B mod K.XF_CALCULATE inargs s).outargs = out)
      ∧ (r ≠ 0 →
          (CustomPython K B mod K.XF_CALCULATE inargs s).status = K.XF_FAILURE_WITH_MSG
            ∧ (CustomPython K B mod K.XF_CALCULATE inargs s).trace
              = s.trace ++ startCalls s.engine
                ++ [Call.DoCalcsAndReturnValues,
                  Call.ReturnErrorMsg K.XF_CALCULATE (mod.ReturnErrorMsgText m₁ K.XF_CALCULATE),
                  Call.Py_Finalize]
            ∧ (CustomPython K B mod K.XF_CALCULATE inargs s).engine = EngineState.Stopped) := by
  have hstep := CustomPython_at_CALCULATE K B mod inargs s
  obtain ⟨hs, he, -, ht, h0, hk, -⟩ :=
    caseCalculate_effect K B mod inargs { s with status := K.XF_FAILURE } r out m₁ hc
  rw [← hstep] at hs he ht h0 hk
  constructor
  · intro h
    refine ⟨?_, ?_, ?_, ?_⟩
    · rw [hs]; simp [h]
    · rw [he]; simp [h]
    · rw [ht]; simp [h]
    · funext k
      cases k with
      | zero => rw [h0]; simp [h]
      | succ k => exact hk k
  · intro h
    refine ⟨?_, ?_, ?_⟩
    · rw [hs, if_pos h]
    · rw [ht, if_pos h]; simp
    · rw [he, if_pos h]

/-- Witness for C15: a module whose calculation reports 0, and one whose
calculation reports 4. -/
theorem XF_CALCULATE_outcome_witness :
    ((CustomPython sampleConstants build32 (constModule 0 0 0 0 0 sampleText)
          sampleConstants.XF_CALCULATE (fun _ => 0) (entryState .Stopped)).status
          = sampleConstants.XF_SUCCESS
        ∧ (CustomPython sampleConstants build32 (constModule 0 0 0 0 0 sampleText)
          sampleConstants.XF_CALCULATE (fun _ => 0) (entryState .Stopped)).engine
          = EngineState.Running)
      ∧ (CustomPython sampleConstants build32 (constModule 0 0 0 0 4 sampleText)
          sampleConstants.XF_CALCULATE (fun _ => 0) (entryState .Stopped)).status
          = sampleConstants.XF_FAILURE_WITH_MSG
      ∧ (CustomPython sampleConstants build32 (constModule 0 0 0 0 4 sampleText)
          sampleConstants.XF_CALCULATE (fun _ => 0) (entryState .Stopped)).engine
          = EngineState.Stopped :=
  have f := (XF_CALCULATE_outcome sampleConstants build32 (constModule 0 0 0 0 0 sampleText)
    (fun _ => 0) (entryState .Stopped) 0 (fun _ => 0) () rfl).1 rfl
  have g := (XF_CALCULATE_outcome sampleConstants build32 (constModule 0 0 0 0 4 sampleText)
    (fun _ => 0) (entryState .Stopped) 4 (fun _ => 0) () rfl).2 (by decide)
  ⟨⟨f.1, f.2.1⟩, g.1, g.2.2⟩

/-- C16 as stated fails: on a 64-bit build whose `unsigned long int` has 32 bits,
with the buffer at `0x180403000`, an address a 64-bit pointer represents, the
first eight bytes of slot 0 read back as `0x80403000`, not as the address. -/
theorem CopyMsgToOutputs_truncates_pointer :
    build64.ptrWidth = Width.w64
      ∧ build64.sBufferAddr < 2 ^ build64.ptrWidth.bits
      ∧ loadPointer build64.ptrWidth
          ((CopyMsgToOutputs build64 sampleText (fun _ => 0) (List.replicate 81 0)).1 0)
        = 0x80403000
      ∧ loadPointer build64.ptrWidth
          ((CopyMsgToOutputs build64 sampleText (fun _ => 0) (List.replicate 81 0)).1 0)
        ≠ build64.sBufferAddr := by
  decide

/-- C16, amended: `CopyMsgToOutputs` stores the buffer address into slot 0 as an
`unsigned long int`: the first `unsigned long` of the slot holds the address
reduced to that width, the bytes of slot 0 beyond the `unsigned long` and every
other slot are as they were before the call; and whenever `unsigned long int` is
at least as wide as a pointer, every address a pointer represents reads back
unchanged from the first pointer-width bytes of the slot. -/
theorem CopyMsgToOutputs_pointer_roundtrip (B : Build) (sMsg : List Nat) (outargs : Args)
    (sBuffer : List Nat) :
    loadULong B.ulongWidth ((CopyMsgToOutputs B sMsg outargs sBuffer).1 0)
        = B.sBufferAddr % 2 ^ B.ulongWidth.bits
      ∧ (CopyMsgToOutputs B sMsg outargs sBuffer).1 0 / 2 ^ B.ulongWidth.bits
        = outargs 0 % 2 ^ 64 / 2 ^ B.ulongWidth.bits
      ∧ (∀ k, (CopyMsgToOutputs B sMsg outargs sBuffer).1 (k + 1) = outargs (k + 1))
      ∧ (B.ptrWidth.bits ≤ B.ulongWidth.bits → B.sBufferAddr < 2 ^ B.ptrWidth.bits →
          loadPointer B.ptrWidth ((CopyMsgToOutputs B sMsg outargs sBuffer).1 0)
            = B.sBufferAddr) := by
  refine ⟨?_, ?_, fun k => CopyMsgToOutputs_slot_succ _ _ _ _ k, fun hpw hv => ?_⟩
  · rw [CopyMsgToOutputs_slot0, loadULong_storeULong]
  · rw [CopyMsgToOutputs_slot0, storeULong_div]
  · rw [CopyMsgToOutputs_slot0]
    exact loadPointer_storeULong _ _ _ _ hpw hv

/-- Witness for the amended C16: the 32-bit build and a 64-bit build with a
64-bit `unsigned long int`, each over a slot that held the number 3, read back
the address; on the 64-bit build with a 32-bit `unsigned long int` the slot that
held the number 3 (`0x4008000000000000`) becomes `0x4008000080403000`, its upper
four bytes untouched, and slot 1 keeps the number 3. -/
theorem CopyMsgToOutputs_pointer_roundtrip_witness :
    loadPointer build32.ptrWidth
        ((CopyMsgToOutputs build32 sampleText (fun _ => doubleOfInt 3)
          (List.replicate 81 0)).1 0) = build32.sBufferAddr
      ∧ loadPointer build64long.ptrWidth
        ((CopyMsgToOutputs build64long sampleText (fun _ => doubleOfInt 3)
          (List.replicate 81 0)).1 0) = build64long.sBufferAddr
      ∧ (CopyMsgToOutputs build64 sampleText (fun _ => doubleOfInt 3)
          (List.replicate 81 0)).1 0 / 2 ^ build64.ulongWidth.bits
        = doubleOfInt 3 % 2 ^ 64 / 2 ^ build64.ulongWidth.bits
      ∧ (CopyMsgToOutputs build64 sampleText (fun _ => doubleOfInt 3)
          (List.replicate 81 0)).1 (0 + 1) = doubleOfInt 3
      ∧ doubleOfInt 3 = 0x4008000000000000
      ∧ (CopyMsgToOutputs build64 sampleText (fun _ => doubleOfInt 3)
          (List.replicate 81 0)).1 0 = 0x4008000080403000 :=
  ⟨(CopyMsgToOutputs_pointer_roundtrip build32 sampleText (fun _ => doubleOfInt 3)
      (List.replicate 81 0)).2.2.2 (by decide) (by decide),
    (CopyMsgToOutputs_pointer_roundtrip build64long sampleText (fun _ => doubleOfInt 3)
      (List.replicate 81 0)).2.2.2 (by decide) (by decide),
    (CopyMsgToOutputs_pointer_roundtrip build64 sampleText (fun _ => doubleOfInt 3)
      (List.replicate 81 0)).2.1,
    (CopyMsgToOutputs_pointer_roundtrip build64 sampleText (fun _ => doubleOfInt 3)
      (List.replicate 81 0)).2.2.1 0,
    by decide, by decide⟩

/-- C17: for every methodID, entry state and module, `CustomPython` never returns
with the plain status `XF_FAILURE`: the status is `XF_SUCCESS`, or it is
`XF_FAILURE_WITH_MSG` and the call has made a `ReturnErrorMsg` before its
`Py_Finalize`. -/
theorem CustomPython_never_plain_failure (K : XFConstants) (B : Build) (mod : Module M)
    (methodID : Int) (inargs : Args) (s : State M) :
    (CustomPython K B mod methodID inargs s).status ≠ K.XF_FAILURE
      ∧ ((CustomPython K B mod methodID inargs s).status = K.XF_SUCCESS
        ∨ ((CustomPython K B mod methodID inargs s).status = K.XF_FAILURE_WITH_MSG
          ∧ ∃ (pre : List Call) (code : Int) (text : List Nat),
              (CustomPython K B mod methodID inargs s).trace
                = s.trace ++ pre ++ [Call.ReturnErrorMsg code text, Call.Py_Finalize])) := by
  have h := CustomPython_success_or_relayed K B mod methodID inargs s
  refine ⟨?_, h⟩
  rcases h with h | ⟨h, -⟩
  · rw [h]; exact K.success_ne_failure
  · rw [h]; exact Ne.symm K.failure_ne_msg

/-- C18: in every call of `CustomPython` the calls made are the start pattern
followed by calls among which there is no `Py_Initialize`, so the engine is
started once when it was Stopped at entry and not at all when it was Running;
replaying the calls from the entry state, every call into the module finds the
engine Running, no call into the module comes after `Py_Finalize`, and the
replay ends in the engine state the call leaves. -/
theorem CustomPython_module_calls_while_running (K : XFConstants) (B : Build)
    (mod : Module M) (methodID : Int) (inargs : Args) (s : State M) :
    ∃ rest : List Call,
      (CustomPython K B mod methodID inargs s).trace = s.trace ++ startCalls s.engine ++ rest
        ∧ Call.Py_Initialize ∉ rest
        ∧ (startCalls s.engine ++ rest).count Call.Py_Initialize
            = (if s.engine = .Stopped then 1 else 0)
        ∧ moduleCallsWhileRunning s.engine (startCalls s.engine ++ rest) = true
        ∧ noModuleCallAfterFinalize (startCalls s.engine ++ rest) = true
        ∧ engineAfter s.engine (startCalls s.engine ++ rest)
            = (CustomPython K B mod methodID inargs s).engine := by
  by_cases hI : methodID = K.XF_INITIALIZE
  · subst hI
    rw [CustomPython_at_INITIALIZE]
    rcases hr : mod.InitRoutines (startModule mod s.engine s.module) with ⟨r, m₁⟩
    obtain ⟨-, he, -, ht, -⟩ :=
      caseInitialize_effect K B mod { s with status := K.XF_FAILURE } r m₁ hr
    refine ⟨[Call.InitRoutines]
        ++ (if r = 1 then
              [Call.ReturnErrorMsg K.XF_INITIALIZE (mod.ReturnErrorMsgText m₁ K.XF_INITIALIZE),
                Call.Py_Finalize]
            else []), ?_, ?_, ?_⟩
    · rw [ht]; simp
    · by_cases h : r = 1 <;> simp [h]
    · rw [he]
      apply replay_after_start <;> by_cases h : r = 1 <;>
        simp [h, moduleCallsWhileRunning, noModuleCallAfterFinalize, engineAfter, engineStep,
          Call.isModuleCall]
  by_cases hV : methodID = K.XF_REP_VERSION
  · subst hV
    rw [CustomPython_at_REP_VERSION]
    rcases hv : mod.ReturnCustomModuleVersion (startModule mod s.engine s.module) with ⟨v, m₁⟩
    rcases hv₂ : mod.ReturnCustomModuleVersion m₁ with ⟨v₂, m₂⟩
    obtain ⟨-, he, -, ht, -⟩ :=
      caseRepVersion_effect K B mod { s with status := K.XF_FAILURE } v v₂ m₁ m₂ hv hv₂
    refine ⟨[Call.ReturnCustomModuleVersion]
        ++ (if doubleGtZero v then [Call.ReturnCustomModuleVersion]
            else
              [Call.ReturnErrorMsg K.XF_REP_VERSION (mod.ReturnErrorMsgText m₁ K.XF_REP_VERSION),
                Call.Py_Finalize]), ?_, ?_, ?_⟩
    · rw [ht]; simp
    · cases h : doubleGtZero v <;> simp
    · rw [he]
      apply replay_after_start <;> cases h : doubleGtZero v <;>
        simp [moduleCallsWhileRunning, noModuleCallAfterFinalize, engineAfter, engineStep,
          Call.isModuleCall]
  by_cases hA : methodID = K.XF_REP_ARGUMENTS
  · subst hA
    rw [CustomPython_at_REP_ARGUMENTS]
    rcases hi : mod.NumInputsExpected (startModule mod s.engine s.module) with ⟨i, m₁⟩
    rcases hq : mod.NumOutputsToProvide m₁ with ⟨o, m₂⟩
    obtain ⟨-, he, -, -, -, ht, -⟩ :=
      caseRepArguments_effect K B mod { s with status := K.XF_FAILURE } i o m₁ m₂ hi hq
    refine ⟨[Call.NumInputsExpected]
        ++ (if i < 0 then
              [Call.ReturnErrorMsg K.XF_REP_ARGUMENTS
                (mod.ReturnErrorMsgText m₁ K.XF_REP_ARGUMENTS)]
            else [])
        ++ [Call.NumOutputsToProvide]
        ++ (if o < 0 then
              [Call.ReturnErrorMsg K.XF_REP_ARGUMENTS
                (mod.ReturnErrorMsgText m₂ K.XF_REP_ARGUMENTS)]
            else [])
        ++ (if i < 0 ∨ o < 0 then [Call.Py_Finalize] else []), ?_, ?_, ?_⟩
    · rw [ht]; simp
    · by_cases h3 : i < 0 <;> by_cases h4 : o < 0 <;> simp [h3, h4]
    · rw [he]
      apply replay_after_start <;> by_cases h3 : i < 0 <;> by_cases h4 : o < 0 <;>
        simp [h3, h4, moduleCallsWhileRunning, noModuleCallAfterFinalize, engineAfter,
          engineStep, Call.isModuleCall]
  by_cases hC : methodID = K.XF_CALCULATE
  · subst hC
    rw [CustomPython_at_CALCULATE]
    rcases hc : mod.DoCalcsAndReturnValues (startModule mod s.engine s.module) inargs s.outargs
      with ⟨r, out, m₁⟩
    obtain ⟨-, he, -, ht, -⟩ :=
      caseCalculate_effect K B mod inargs { s with status := K.XF_FAILURE } r out m₁ hc
    refine ⟨[Call.DoCalcsAndReturnValues]
        ++ (if r ≠ 0 then
              [Call.ReturnErrorMsg K.XF_CALCULATE (mod.ReturnErrorMsgText m₁ K.XF_CALCULATE),
                Call.Py_Finalize]
            else []), ?_, ?_, ?_⟩
    · rw [ht]; simp
    · by_cases h : r = 0 <;> simp [h]
    · rw [he]
      apply replay_after_start <;> by_cases h : r = 0 <;>
        simp [h, moduleCallsWhileRunning, noModuleCallAfterFinalize, engineAfter, engineStep,
          Call.isModuleCall]
  by_cases hU : methodID = K.XF_CLEANUP
  · subst hU
    rw [CustomPython_at_CLEANUP]
    obtain ⟨-, he, -, ht, -⟩ := caseCleanup_effect K mod { s with status := K.XF_FAILURE }
    refine ⟨[Call.WrapUpSimulation, Call.Py_Finalize], by rw [ht], by simp, ?_⟩
    rw [he]
    apply replay_after_start <;>
      simp [moduleCallsWhileRunning, noModuleCallAfterFinalize, engineAfter, engineStep,
        Call.isModuleCall]
  · rw [CustomPython_at_other K B mod methodID inargs s hI hV hA hC hU]
    obtain ⟨-, he, -, ht, -⟩ := caseDefault_effect K B mod { s with status := K.XF_FAILURE }
    refine ⟨[Call.ReturnErrorMsg 5 (mod.ReturnErrorMsgText (startModule mod s.engine s.module) 5),
      Call.Py_Finalize], by rw [ht], by simp, ?_⟩
    rw [he]
    apply replay_after_start <;>
      simp [moduleCallsWhileRunning, noModuleCallAfterFinalize, engineAfter, engineStep,
        Call.isModuleCall]

/-- C19: the Initialize case treats exactly the return value 1 of `InitRoutines`
as a failure.  With `r` the value returned: if `r ≠ 1` the status is
`XF_SUCCESS`, the only call after the engine start is `InitRoutines` (nothing is
relayed) and the engine is Running; if `r = 1` the status is
`XF_FAILURE_WITH_MSG` and the engine is Stopped.  The Calculate case differs:
there every outcome `q ≠ 0` of `DoCalcsAndReturnValues` gives
`XF_FAILURE_WITH_MSG` and a Stopped engine. -/
theorem InitRoutines_fails_only_on_one (K : XFConstants) (B : Build) (mod : Module M)
    (inargs : Args) (s : State M) (r : Int) (m₁ : M) (q : Int) (out : Args) (m₂ : M)
    (hr : mod.InitRoutines (startModule mod s.engine s.module) = (r, m₁))
    (hc : mod.DoCalcsAndReturnValues (startModule mod s.engine s.module) inargs s.outargs
      = (q, out, m₂)) :
    (r ≠ 1 →
        (CustomPython K B mod K.XF_INITIALIZE inargs s).status = K.XF_SUCCESS
          ∧ (CustomPython K B mod K.XF_INITIALIZE inargs s).trace
            = s.trace ++ startCalls s.engine ++ [Call.InitRoutines]
          ∧ (CustomPython K B mod K.XF_INITIALIZE inargs s).engine = EngineState.Running)
      ∧ (r = 1 →
          (CustomPython K B mod K.XF_INITIALIZE inargs s).status = K.XF_FAILURE_WITH_MSG
            ∧ (CustomPython K B mod K.XF_INITIALIZE inargs s).engine = EngineState.Stopped)
      ∧ (q ≠ 0 →
          (CustomPython K B mod K.XF_CALCULATE inargs s).status = K.XF_FAILURE_WITH_MSG
            ∧ (CustomPython K B mod K.XF_CALCULATE inargs s).engine = EngineState.Stopped) := by
  have hstepI := CustomPython_at_INITIALIZE K B mod inargs s
  have hstepC := CustomPython_at_CALCULATE K B mod inargs s
  obtain ⟨hs, he, -, ht, -⟩ :=
    caseInitialize_effect K B mod { s with status := K.XF_FAILURE } r m₁ hr
  obtain ⟨hs', he', -⟩ :=
    caseCalculate_effect K B mod inargs { s with status := K.XF_FAILURE } q out m₂ hc
  rw [← hstepI] at hs he ht
  rw [← hstepC] at hs' he'
  refine ⟨fun h => ⟨?_, ?_, ?_⟩, fun h => ⟨?_, ?_⟩, fun h => ⟨?_, ?_⟩⟩
  · rw [hs, if_neg h]
  · rw [ht, if_neg h]; simp
  · rw [he, if_neg h]
  · rw [hs, if_pos h]
  · rw [he, if_pos h]
  · rw [hs', if_pos h]
  · rw [he', if_pos h]

/-- Witness for C19: `InitRoutines` returning 2, 0, -1 and 1, and a calculation
reporting 2. -/
theorem InitRoutines_fails_only_on_one_witness :
    (CustomPython sampleConstants build32 (constModule 2 0 0 0 2 sampleText)
        sampleConstants.XF_INITIALIZE (fun _ => 0) (entryState .Stopped)).status
        = sampleConstants.XF_SUCCESS
      ∧ (CustomPython sampleConstants build32 (constModule 0 0 0 0 2 sampleText)
        sampleConstants.XF_INITIALIZE (fun _ => 0) (entryState .Stopped)).status
        = sampleConstants.XF_SUCCESS
      ∧ (CustomPython sampleConstants build32 (constModule (-1) 0 0 0 2 sampleText)
        sampleConstants.XF_INITIALIZE (fun _ => 0) (entryState .Stopped)).engine
        = EngineState.Running
      ∧ (CustomPython sampleConstants build32 (constModule 1 0 0 0 2 sampleText)
        sampleConstants.XF_INITIALIZE (fun _ => 0) (entryState .Stopped)).status
        = sampleConstants.XF_FAILURE_WITH_MSG
      ∧ (CustomPython sampleConstants build32 (constModule 2 0 0 0 2 sampleText)
        sampleConstants.XF_CALCULATE (fun _ => 0) (entryState .Stopped)).status
        = sampleConstants.XF_FAILURE_WITH_MSG :=
  have a := InitRoutines_fails_only_on_one sampleConstants build32
    (constModule 2 0 0 0 2 sampleText) (fun _ => 0) (entryState .Stopped) 2 () 2 (fun _ => 0) ()
    rfl rfl
  have b := InitRoutines_fails_only_on_one sampleConstants build32
    (constModule 0 0 0 0 2 sampleText) (fun _ => 0) (entryState .Stopped) 0 () 2 (fun _ => 0) ()
    rfl rfl
  have c := InitRoutines_fails_only_on_one sampleConstants build32
    (constModule (-1) 0 0 0 2 sampleText) (fun _ => 0) (entryState .Stopped) (-1) () 2
    (fun _ => 0) () rfl rfl
  have d := InitRoutines_fails_only_on_one sampleConstants build32
    (constModule 1 0 0 0 2 sampleText) (fun _ => 0) (entryState .Stopped) 1 () 2 (fun _ => 0) ()
    rfl rfl
  ⟨(a.1 (by decide)).1, (b.1 (by decide)).1, (c.1 (by decide)).2.2, (d.2.1 rfl).1,
    (a.2.2 (by decide)).1⟩

/-- C20: on the ReportVersion path, with `v` the value of the first
`ReturnCustomModuleVersion` and `v₂` the value a second invocation yields: if
`v <= 0` the function is invoked once; if `v > 0` it is invoked twice, the
status is `XF_SUCCESS` whatever `v₂` is, slot 0 holds `v₂`, and slot 0 equals
the tested value `v` exactly when `v₂ = v`. -/
theorem ReturnCustomModuleVersion_invocations (K : XFConstants) (B : Build) (mod : Module M)
    (inargs : Args) (s : State M) (v v₂ : Nat) (m₁ m₂ : M)
    (hv : mod.ReturnCustomModuleVersion (startModule mod s.engine s.module) = (v, m₁))
    (hv₂ : mod.ReturnCustomModuleVersion m₁ = (v₂, m₂)) :
    (doubleLeZero v = true →
        (CustomPython K B mod K.XF_REP_VERSION inargs s).trace
            = s.trace ++ startCalls s.engine
              ++ [Call.ReturnCustomModuleVersion,
                Call.ReturnErrorMsg K.XF_REP_VERSION (mod.ReturnErrorMsgText m₁ K.XF_REP_VERSION),
                Call.Py_Finalize]
          ∧ ((CustomPython K B mod K.XF_REP_VERSION inargs s).trace.drop s.trace.length).count
              Call.ReturnCustomModuleVersion = 1)
      ∧ (doubleGtZero v = true →
          (CustomPython K B mod K.XF_REP_VERSION inargs s).trace
              = s.trace ++ startCalls s.engine
                ++ [Call.ReturnCustomModuleVersion, Call.ReturnCustomModuleVersion]
            ∧ ((CustomPython K B mod K.XF_REP_VERSION inargs s).trace.drop s.trace.length).count
                Call.ReturnCustomModuleVersion = 2
            ∧ (CustomPython K B mod K.XF_REP_VERSION inargs s).status = K.XF_SUCCESS
            ∧ (CustomPython K B mod K.XF_REP_VERSION inargs s).outargs 0 = v₂
            ∧ ((CustomPython K B mod K.XF_REP_VERSION inargs s).outargs 0 = v ↔ v₂ = v)) := by
  have hstep := CustomPython_at_REP_VERSION K B mod inargs s
  obtain ⟨hs, -, -, ht, ho, -⟩ :=
    caseRepVersion_effect K B mod { s with status := K.XF_FAILURE } v v₂ m₁ m₂ hv hv₂
  rw [← hstep] at hs ht ho
  constructor
  · intro h
    have hneg := doubleGtZero_of_leZero h
    have ht' : (CustomPython K B mod K.XF_REP_VERSION inargs s).trace
        = s.trace ++ (startCalls s.engine
          ++ [Call.ReturnCustomModuleVersion,
            Call.ReturnErrorMsg K.XF_REP_VERSION (mod.ReturnErrorMsgText m₁ K.XF_REP_VERSION),
            Call.Py_Finalize]) := by
      rw [ht]; simp [hneg]
    refine ⟨by rw [ht', List.append_assoc], ?_⟩
    rw [ht', List.drop_left]
    cases s.engine <;> simp [startCalls]
  · intro h
    have ht' : (CustomPython K B mod K.XF_REP_VERSION inargs s).trace
        = s.trace ++ (startCalls s.engine
          ++ [Call.ReturnCustomModuleVersion, Call.ReturnCustomModuleVersion]) := by
      rw [ht]; simp [h]
    refine ⟨by rw [ht', List.append_assoc], ?_, ?_, ?_, ?_⟩
    · rw [ht', List.drop_left]
      cases s.engine <;> simp [startCalls]
    · rw [hs]; simp [h]
    · rw [ho]; simp [h]
    · rw [ho]; simp [h]

/-- Witness for C20: a module reporting 0.0, and a module reporting 1.0 and
then 2.0. -/
theorem ReturnCustomModuleVersion_invocations_witness :
    ((CustomPython sampleConstants build32 (versionModule 0 (doubleOfInt 2))
          sampleConstants.XF_REP_VERSION (fun _ => 0)
          (versionEntryState .Running)).trace.drop (versionEntryState .Running).trace.length).count
        Call.ReturnCustomModuleVersion = 1
      ∧ ((CustomPython sampleConstants build32 (versionModule (doubleOfInt 1) (doubleOfInt 2))
          sampleConstants.XF_REP_VERSION (fun _ => 0)
          (versionEntryState .Running)).trace.drop (versionEntryState .Running).trace.length).count
        Call.ReturnCustomModuleVersion = 2
      ∧ (CustomPython sampleConstants build32 (versionModule (doubleOfInt 1) (doubleOfInt 2))
          sampleConstants.XF_REP_VERSION (fun _ => 0) (versionEntryState .Running)).outargs 0
        = doubleOfInt 2 :=
  have a := (ReturnCustomModuleVersion_invocations sampleConstants build32
    (versionModule 0 (doubleOfInt 2)) (fun _ => 0) (versionEntryState .Running)
    0 (doubleOfInt 2) 1 2 rfl rfl).1 (by decide)
  have b := (ReturnCustomModuleVersion_invocations sampleConstants build32
    (versionModule (doubleOfInt 1) (doubleOfInt 2)) (fun _ => 0) (versionEntryState .Running)
    (doubleOfInt 1) (doubleOfInt 2) 1 2 rfl rfl).2 (by decide)
  ⟨a.2, b.2.1, b.2.2.2.1⟩

end Claims

end GoldQC
